/-
  Verification of the `summer_memory` long-term-memory subsystem of NagaAgent.

  Shallow embedding of the Python sources under `summer_memory/`:
  quintuples are records over `String` fields with exact-rational (`ℚ`)
  timestamps and scores (Python floats are modelled by exact rationals; all
  numeric comparisons in the claims are far from the float error margin),
  and the transcendental `math.exp` is modelled by `Real.exp` where its
  analytic properties matter and passed as an oracle parameter where it is
  only dead data for the claim at hand.
-/
import Mathlib

namespace SummerMemory

/-- An enhanced quintuple as produced by
`quintuple_extractor.create_enhanced_quintuple` and manipulated throughout
`summer_memory`: the five string fields plus metadata.  Python stores these
as dicts; optional keys that are only added by merging or annotation are
modelled as `Option` fields (absent key = `none`).  The `timestamp` field is
the raw epoch float (the format the extractor writes); records are modelled
as always carrying it. -/
structure Quintuple where
  subject : String
  subject_type : String
  predicate : String
  object : String
  object_type : String
  timestamp : ℚ
  session_id : String
  memory_type : String
  importance_score : ℚ
  session_ids : Option (List String) := none
  merged_from : Option ℕ := none
  merge_timestamp : Option ℚ := none
  decayed_importance : Option ℚ := none
  age_hours : Option ℚ := none
  deriving DecidableEq

instance : Inhabited Quintuple :=
  ⟨{ subject := "", subject_type := "", predicate := "", object := "",
     object_type := "", timestamp := 0, session_id := "", memory_type := "fact",
     importance_score := 1/2 }⟩

/-! ### difflib.SequenceMatcher (as used by `calculate_string_similarity`)

`SemanticDeduplicator.calculate_string_similarity` calls
`difflib.SequenceMatcher(None, text1, text2).ratio()`.  For the short strings
involved (far below the 200-character autojunk threshold) there is no junk,
so `ratio` is the plain Ratcliff/Obershelp computation: recursively find the
longest matching block (ties broken by scan order: lowest start in `a`, then
lowest start in `b`) and sum the matched lengths `M`; the ratio is
`2*M/(len a + len b)`. -/

/-- One row (`i` fixed) of CPython's `find_longest_match` inner loop: walk the
positions `j` of `b` (ascending) holding the character `a[i]`, restricted to
`[blo, bhi)`; `old` is the previous row's `j2len`, the result is the new row's
`j2len` together with the updated best `(besti, bestj, bestsize)`. -/
def flmRow (a b : List Char) (blo bhi i : ℕ)
    (old : ℕ → ℕ) (best : ℕ × ℕ × ℕ) : (ℕ → ℕ) × (ℕ × ℕ × ℕ) :=
  (List.range b.length).foldl
    (fun st j =>
      if blo ≤ j ∧ j < bhi ∧ b.getD j ' ' = a.getD i ' ' then
        let k := (if j = 0 then 0 else old (j - 1)) + 1
        ((fun x => if x = j then k else st.1 x),
         if st.2.2.2 < k then (i + 1 - k, j + 1 - k, k) else st.2)
      else st)
    ((fun _ => 0), best)

/-- CPython `SequenceMatcher.find_longest_match` on the window
`a[alo:ahi]`, `b[blo:bhi]` (no junk, no popular elements for our short
inputs): returns `(i, j, size)` of the longest matching block, scan-order tie
break. -/
def findLongestMatch (a b : List Char) (alo ahi blo bhi : ℕ) : ℕ × ℕ × ℕ :=
  ((List.range a.length).foldl
    (fun st i =>
      if alo ≤ i ∧ i < ahi then flmRow a b blo bhi i st.1 st.2 else st)
    ((fun _ => 0), (alo, blo, 0))).2

/-- Total size of all matching blocks (the `M` of `ratio`): recursively split
at the longest match, as `get_matching_blocks` does.  The recursion depth is
bounded by the width of the `a`-window, so fuel `a.length + 1` never runs
out for the top-level call. -/
def matchTotalAux (a b : List Char) : ℕ → ℕ → ℕ → ℕ → ℕ → ℕ
  | 0, _, _, _, _ => 0
  | fuel + 1, alo, ahi, blo, bhi =>
    let m := findLongestMatch a b alo ahi blo bhi
    if m.2.2 = 0 then 0
    else
      matchTotalAux a b fuel alo m.1 blo m.2.1 + m.2.2 +
        matchTotalAux a b fuel (m.1 + m.2.2) ahi (m.2.1 + m.2.2) bhi

def matchTotal (a b : List Char) : ℕ :=
  matchTotalAux a b (a.length + 1) 0 a.length 0 b.length

/-- The `SequenceMatcher.ratio()`: `2*M/T` with `T` the total length; CPython's
`_calculate_ratio` returns `1.0` when both strings are empty. -/
def smRatio (a b : List Char) : ℚ :=
  if a.length + b.length = 0 then 1
  else 2 * (matchTotal a b : ℚ) / (a.length + b.length : ℚ)

/-! ### semantic_deduplicator.py -/

/-- The `SemanticDeduplicator.calculate_string_similarity`. -/
def calculate_string_similarity (t1 t2 : String) : ℚ :=
  smRatio t1.toList t2.toList

/-- The default `similarity_threshold` of the module-level
`semantic_deduplicator` instance. -/
def similarity_threshold : ℚ := 8/10

/-- The `SemanticDeduplicator.calculate_semantic_similarity`: weighted sum of the
per-field string similarities with weights
subject 0.3, subject_type 0.1, predicate 0.3, object 0.2, object_type 0.1. -/
def calculate_semantic_similarity (q1 q2 : Quintuple) : ℚ :=
  3/10 * calculate_string_similarity q1.subject q2.subject +
  1/10 * calculate_string_similarity q1.subject_type q2.subject_type +
  3/10 * calculate_string_similarity q1.predicate q2.predicate +
  2/10 * calculate_string_similarity q1.object q2.object +
  1/10 * calculate_string_similarity q1.object_type q2.object_type

/-- The `SemanticDeduplicator.are_semantically_similar`. -/
def are_semantically_similar (q1 q2 : Quintuple) : Prop :=
  similarity_threshold ≤ calculate_semantic_similarity q1 q2

instance (q1 q2 : Quintuple) : Decidable (are_semantically_similar q1 q2) := by
  unfold are_semantically_similar; infer_instance

/-- The `SemanticDeduplicator.find_similar_quintuples`, called from
`deduplicate_quintuples` with target `quintuples[i]`: all positions `j` whose
element is similar to `quintuples[i]`, sorted by similarity descending
(stable).  The Python code skips entries by object identity
(`quintuple is not target_quintuple`); since the target is the list element
at `i` and the lists fed to it hold pairwise-distinct objects, this is
exclusion of exactly the index `i`. -/
def find_similar_quintuples (L : List Quintuple) (i : ℕ) : List (ℕ × ℚ) :=
  let pairs := (List.range L.length).filterMap (fun j =>
    let s := calculate_semantic_similarity (L.getD i default) (L.getD j default)
    if j ≠ i ∧ similarity_threshold ≤ s then some (j, s) else none)
  List.insertionSort (fun p q : ℕ × ℚ => q.2 ≤ p.2) pairs

/-- The `SemanticDeduplicator.merge_similar_quintuples`: base = member with the
latest timestamp (first such, as Python `max` keeps the first maximum),
importance = group max, `session_ids` = the group's session ids as a set
(Python materialises `list(set(...))` in unspecified order; we model it as
first-occurrence order, and no theorem below depends on that order),
`merged_from` = group size, `merge_timestamp` = latest timestamp. -/
def merge_similar_quintuples : List Quintuple → Quintuple
  | [] => default
  | [q] => q
  | q0 :: q1 :: rest =>
    let qs := q0 :: q1 :: rest
    let base := (q1 :: rest).foldl
      (fun acc x => if acc.timestamp < x.timestamp then x else acc) q0
    { base with
      importance_score :=
        (q1 :: rest).foldl (fun m x => max m x.importance_score) q0.importance_score,
      session_ids := some ((qs.map (fun q => q.session_id)).dedup),
      merged_from := some qs.length,
      merge_timestamp :=
        some ((q1 :: rest).foldl (fun m x => max m x.timestamp) q0.timestamp) }

/-- The loop body of `SemanticDeduplicator.deduplicate_quintuples`: walk the
indices in order; an index already absorbed into an earlier group is skipped,
otherwise its similarity group (over the whole list, processed or not —
exactly as the source rescans everything) is merged and appended. -/
def dedupGo (L : List Quintuple) : List ℕ → List ℕ → List Quintuple
  | [], _ => []
  | i :: rest, processed =>
    if i ∈ processed then dedupGo L rest processed
    else
      let sims := find_similar_quintuples L i
      if sims = [] then L.getD i default :: dedupGo L rest (processed ++ [i])
      else
        let group := i :: sims.map Prod.fst
        merge_similar_quintuples (group.map (fun j => L.getD j default)) ::
          dedupGo L rest (processed ++ group)

/-- The `SemanticDeduplicator.deduplicate_quintuples`. -/
def deduplicate_quintuples (L : List Quintuple) : List Quintuple :=
  dedupGo L (List.range L.length) []

/-- The `SemanticDeduplicator.normalize_text`: lowercase, strip punctuation
(keep Python `\w` word characters and whitespace), collapse whitespace runs
to single blanks and trim.  Python's Unicode `\w` and `\s` are modelled for
the character classes this repository actually uses: ASCII alphanumerics,
underscore, CJK ideographs; ASCII whitespace. -/
def pyIsSpace (c : Char) : Bool :=
  c = ' ' ∨ c = '\t' ∨ c = '\n' ∨ c = '\r' ∨ c = Char.ofNat 11 ∨ c = Char.ofNat 12

def pyIsWordChar (c : Char) : Bool :=
  c.isAlphanum ∨ c = '_' ∨ (0x4E00 ≤ c.toNat ∧ c.toNat ≤ 0x9FFF)

/-- Whitespace tokenisation as Python `str.split()` (split on whitespace
runs, no empty tokens). -/
def splitTokens : List Char → List Char → List (List Char)
  | [], cur => if cur = [] then [] else [cur.reverse]
  | c :: cs, cur =>
    if pyIsSpace c then
      (if cur = [] then splitTokens cs [] else cur.reverse :: splitTokens cs [])
    else splitTokens cs (c :: cur)

def tokenize (s : List Char) : List (List Char) := splitTokens s []

def normalize_text (s : String) : List Char :=
  let cleaned := (s.toList.map Char.toLower).filter
    (fun c => pyIsWordChar c ∨ pyIsSpace c)
  List.intercalate [' '] (tokenize cleaned)

/-- The `SemanticDeduplicator.get_quintuple_signature`. -/
def get_quintuple_signature (q : Quintuple) : List Char :=
  normalize_text q.subject ++ '|' :: normalize_text q.predicate ++
    '|' :: normalize_text q.object

/-- The `SemanticDeduplicator.fast_deduplicate`: keep the first record for each
normalized (subject|predicate|object) signature, drop later ones. -/
def fastDedupGo : List Quintuple → List (List Char) → List Quintuple
  | [], _ => []
  | q :: rest, seen =>
    let s := get_quintuple_signature q
    if s ∈ seen then fastDedupGo rest seen
    else q :: fastDedupGo rest (s :: seen)

def fast_deduplicate (L : List Quintuple) : List Quintuple :=
  fastDedupGo L []

/-- The `SemanticDeduplicator.smart_deduplicate`: exact-signature pass then
semantic pass. -/
def smart_deduplicate (L : List Quintuple) : List Quintuple :=
  deduplicate_quintuples (fast_deduplicate L)

/-! ### typed_memory_storage.py -/

/-- The `MemoryType` enum. -/
inductive MemoryType where
  | fact | process | emotion | meta
  deriving DecidableEq

/-- The `MemoryType(memory_type_str)` — raises `ValueError` (modelled as `none`)
on an unknown string. -/
def MemoryType.ofString : String → Option MemoryType
  | "fact" => some .fact
  | "process" => some .process
  | "emotion" => some .emotion
  | "meta" => some .meta
  | _ => none

/-- The `retention_days` per type, from `_init_storage_configs`. -/
def retention_days : MemoryType → ℚ
  | .fact => 365
  | .process => 90
  | .emotion => 180
  | .meta => 730

/-- The `max_size` per type, from `_init_storage_configs`. -/
def max_size : MemoryType → ℕ
  | .fact => 10000
  | .process => 5000
  | .emotion => 3000
  | .meta => 2000

/-- The state of a `TypedMemoryStorage` instance: the four JSON type-files
and the in-memory `memory_indices` (a dict per type from memory key to the
list position recorded at insertion time). -/
structure TypedStorage where
  files : MemoryType → List Quintuple
  indices : MemoryType → List (String × ℕ)

def TypedStorage.empty : TypedStorage :=
  { files := fun _ => [], indices := fun _ => [] }

/-- The `TypedMemoryStorage._get_memory_key`: note it uses only
(subject, predicate, object) — not the five-field dedup key. -/
def get_memory_key (q : Quintuple) : String :=
  q.subject ++ "|" ++ q.predicate ++ "|" ++ q.object

/-- The `_apply_retention_policy` at wall-clock time `now`: keep records whose
`timestamp` is at or after the cutoff.  (Records are modelled as always
carrying a numeric `timestamp`, the format the extractor writes; the
`.get("timestamp", current_time)` default for key-less records is then
moot.) -/
def apply_retention_policy (now : ℚ) (days : ℚ) (ms : List Quintuple) :
    List Quintuple :=
  if days ≤ 0 then ms
  else ms.filter (fun m => now - days * 24 * 3600 ≤ m.timestamp)

/-- The `_apply_size_limit`: keep the `maxSize` most important records (stable
descending sort by `importance_score`, like Python's stable
`sorted(..., reverse=True)`). -/
def apply_size_limit (maxSize : ℕ) (ms : List Quintuple) : List Quintuple :=
  if ms.length ≤ maxSize then ms
  else
    (List.insertionSort
      (fun a b : Quintuple => b.importance_score ≤ a.importance_score) ms).take
      maxSize

/-- The `_save_memories`: the list that actually lands in the type-file. -/
def save_memories (now : ℚ) (mt : MemoryType) (ms : List Quintuple) :
    List Quintuple :=
  let ms := apply_retention_policy now (retention_days mt) ms
  if max_size mt < ms.length then apply_size_limit (max_size mt) ms else ms

/-- Update one type's slot in a per-type map. -/
def updAt {α : Type} (f : MemoryType → α) (mt : MemoryType) (a : α) :
    MemoryType → α :=
  fun x => if x = mt then a else f x

/-- The `TypedMemoryStorage.store_memory` at wall-clock time `now`.  Returns the
new state and the boolean result.  Any exception inside the `try` (unknown
memory type raising `ValueError`, or the stale-index write
`memories[existing_index] = quintuple` raising `IndexError`) is caught and
yields `False` with no state change. -/
def store_memory (st : TypedStorage) (now : ℚ) (q : Quintuple) :
    TypedStorage × Bool :=
  match MemoryType.ofString q.memory_type with
  | none => (st, false)
  | some mt =>
    let ms := st.files mt
    match (st.indices mt).lookup (get_memory_key q) with
    | some i =>
      if i < ms.length then
        ({ st with files := updAt st.files mt (save_memories now mt (ms.set i q)) },
         true)
      else (st, false)
    | none =>
      ({ files := updAt st.files mt (save_memories now mt (ms ++ [q])),
         indices := updAt st.indices mt
           ((get_memory_key q, ms.length) :: st.indices mt) },
       true)

/-- One iteration of the `cleanup_old_memories` loop for type `mt`: the
per-type file is re-read from the (unchanged-by-other-types) storage `st`,
re-filtered, and persisted only when something was dropped. -/
def cleanup_step (st : TypedStorage) (now : ℚ) (mt : MemoryType)
    (acc : TypedStorage × ℕ) : TypedStorage × ℕ :=
  let ms := st.files mt
  let cleaned := apply_retention_policy now (retention_days mt) ms
  if cleaned.length < ms.length then
    ({ acc.1 with files := updAt acc.1.files mt (save_memories now mt cleaned) },
     acc.2 + (ms.length - cleaned.length))
  else acc

/-- The `TypedMemoryStorage.cleanup_old_memories` at time `now`: re-filter every
type-file by its retention period, persisting (through `_save_memories`)
only the files where something was dropped; returns the new state and the
total evicted count. -/
def cleanup_old_memories (st : TypedStorage) (now : ℚ) : TypedStorage × ℕ :=
  cleanup_step st now .meta (cleanup_step st now .emotion
    (cleanup_step st now .process (cleanup_step st now .fact (st, 0))))

/-! ### quintuple_graph.py  (`store_quintuples`)

`store_quintuples` touches three effectful collaborators: the typed storage
(`store_memory` per quintuple), the flat `quintuples.json` file
(load + merge + smart-dedup + save), and the optional Neo4j graph.  For the
return-value claims the outcomes of those effects are the relevant data, so
they are supplied as an environment: whether each typed store succeeds,
whether the flat-file save raises, and — when a graph backend is connected —
whether merging a given quintuple raises. -/

structure GraphStoreEnv where
  /-- Result of `typed_memory_storage.store_memory` for each quintuple. -/
  typedStoreOk : Quintuple → Bool
  /-- Whether `save_quintuples` (the flat-file write) succeeds; if it raises,
  the outer `except` returns `False`. -/
  fileSaveOk : Bool
  /-- The `some mergeOk` iff the module-level `graph` is not `None`;
  `mergeOk q` tells whether the three `graph.merge` calls for `q` succeed. -/
  graph : Option (Quintuple → Bool)

/-- The `store_quintuples(new_quintuples)`: `True` iff every typed store
succeeded, the flat-file write succeeded, and (when a graph backend is
connected) no merge of a non-skipped quintuple raised.  Quintuples with an
empty subject or object are skipped before touching the graph. -/
def store_quintuples (env : GraphStoreEnv) (new : List Quintuple) : Bool :=
  let storage_success := new.all env.typedStoreOk
  if !env.fileSaveOk then false
  else
    let graph_success :=
      match env.graph with
      | none => true
      | some mergeOk =>
        new.all (fun q =>
          if q.subject = "" ∨ q.object = "" then true else mergeOk q)
    storage_success && graph_success

/-! ### time_axis_manager.py

The decay computation uses `math.exp`; it is modelled over `ℝ` with
`Real.exp`. -/

/-- The `half_life`: 30 days in seconds. -/
def half_life : ℝ := 30 * 24 * 3600

/-- The `TimeAxisManager.calculate_time_decay_factor` at wall-clock time `now`
for a raw epoch timestamp `ts`:
`max(0.1, exp(-(now - ts) / half_life))`. -/
noncomputable def calculate_time_decay_factor (now ts : ℝ) : ℝ :=
  max (1/10) (Real.exp (-((now - ts) / half_life)))

/-- The `TimeAxisManager.apply_time_decay`: the transient decayed importance of
a quintuple with stored score `imp`; the stored score is never mutated. -/
noncomputable def apply_time_decay (now ts imp : ℝ) : ℝ :=
  imp * calculate_time_decay_factor now ts

/-! ### memory_importance_analyzer.py -/

def important_entities : List String := ["人物", "组织", "事件", "地点"]

def important_relations : List String :=
  ["是", "拥有", "完成", "开始", "结束", "创建", "发现", "结婚", "死亡"]

/-- The `MemoryImportanceAnalyzer.calculate_basic_importance`.  The proper-noun
bonus evaluates `quintuple["subject"][0].isupper() or
quintuple["object"][0].isupper()` with Python's short-circuit `or`, so an
empty subject always raises `IndexError` (modelled as `none`), while an
empty object raises only when the subject's first character is not
uppercase. -/
def calculate_basic_importance (q : Quintuple) (context : String) : Option ℚ :=
  let s1 : ℚ := 1/2 +
    (if q.subject_type ∈ important_entities ∨ q.object_type ∈ important_entities
     then 2/10 else 0)
  let s2 : ℚ := s1 + (if q.predicate ∈ important_relations then 2/10 else 0)
  let s3 : ℚ := s2 + (if 100 < context.length then 1/10 else 0)
  match q.subject.toList with
  | [] => none
  | c :: _ =>
    if c.isUpper then some (min (max (s3 + 1/10) 0) 1)
    else
      match q.object.toList with
      | [] => none
      | d :: _ =>
        some (min (max (s3 + if d.isUpper then 1/10 else 0) 0) 1)

/-! ### intelligent_memory_extractor.py -/

inductive QueryType where
  | factual | temporal | relational | emotional | procedural | meta
  | comprehensive
  deriving DecidableEq

inductive ExtractionStrategy where
  | keyword_based | semantic_search | time_based | importance_based
  | type_based | hybrid
  deriving DecidableEq

/-- Python `pattern in string` (substring containment). -/
def containsSub (s : List Char) (p : String) : Bool :=
  decide (p.toList <:+: s)

/-- The `query.lower()`; Python's full-Unicode lowercasing agrees with ASCII
lowering on every character class this module's patterns use (CJK
characters and ASCII). -/
def pyLower (s : String) : List Char := s.toList.map Char.toLower

/-- The `IntelligentMemoryExtractor._classify_query_type`: ordered hardcoded
substring checks over the lowercased query. -/
def classify_query_type (query : String) : QueryType :=
  let ql := pyLower query
  if ["什么时候", "何时", "多久", "最近", "今天", "昨天"].any
      (fun p => containsSub ql p) then .temporal
  else if ["感觉", "喜欢", "讨厌", "开心", "难过"].any
      (fun p => containsSub ql p) then .emotional
  else if ["如何", "怎么", "步骤", "过程", "方法"].any
      (fun p => containsSub ql p) then .procedural
  else if ["关于", "是什么", "为什么", "解释", "总结"].any
      (fun p => containsSub ql p) then .meta
  else if ["关系", "联系", "关联", "和", "与"].any
      (fun p => containsSub ql p) then .relational
  else .factual

/-- A parsed `time_constraints` dict: `{"type": ..., "value": ...}`. -/
structure TimeConstraints where
  ctype : String
  value : Option ℚ
  deriving DecidableEq

/-- The `_extract_keywords`: lowercase, strip punctuation (`[^\w\s]` removed),
whitespace-split, drop stop words and single-character tokens, then
`list(set(...))` (modelled as first-occurrence deduplication; Python's set
order is unspecified and no theorem below depends on it). -/
def stop_words : List (List Char) :=
  (["的", "了", "是", "在", "有", "和", "与", "或", "但", "如果", "因为",
    "所以", "这个", "那个"]).map String.toList

def clean_query (query : String) : List Char :=
  (query.toList.map Char.toLower).filter (fun c => pyIsWordChar c ∨ pyIsSpace c)

def extract_keywords (query : String) : List (List Char) :=
  ((tokenize (clean_query query)).filter
    (fun w => w ∉ stop_words ∧ 1 < w.length)).dedup

def pyDigits : List Char := "0123456789".toList

/-- Whether a run of exactly `n` digits immediately followed by the literal
`p` occurs starting at the head of `s`. -/
def digitsRunThenAt (n : ℕ) (p : String) (s : List Char) : Bool :=
  decide ((s.take n).length = n) && (s.take n).all Char.isDigit &&
    decide (p.toList <+: s.drop n)

/-- The `re.search(r"\d{n}<p>", s)` viewed as a Boolean: some position of `s`
starts `n` digits followed by `p`.  (For the patterns used here — `p` never
starts with a digit, and `\d{1,2}`/`\d+` searches succeed iff a single digit
immediately precedes `p` — this is exactly the regex's search success.) -/
def hasDigitsRunThen (n : ℕ) (p : String) : List Char → Bool
  | [] => false
  | c :: cs => digitsRunThenAt n p (c :: cs) || hasDigitsRunThen n p cs

/-- The `temporal_patterns` regex list of the extractor, as a search
predicate on the raw query. -/
def temporal_pattern_matches (q : List Char) : Bool :=
  (["最近", "今天", "昨天", "明天", "前天", "后天", "上周", "下周",
    "上个月", "下个月", "去年", "今年"].any (fun p => containsSub q p)) ||
  (["小时前", "天前", "周前", "月前", "年前"].any
    (fun p => hasDigitsRunThen 1 p q)) ||
  (hasDigitsRunThen 4 "年" q || hasDigitsRunThen 1 "月" q ||
    hasDigitsRunThen 1 "日" q)

def digitsToNat (ds : List Char) : ℕ :=
  ds.foldl (fun n c => 10 * n + (c.toNat - 48)) 0

/-- The `re.search(r'(\d+)小时前', query)`: leftmost match, greedy digit run
(the literal tail starts with no digit, so the greedy run is the maximal
one), returning the matched integer. -/
def find_hours_ago : List Char → Option ℕ
  | [] => none
  | c :: cs =>
    let run := (c :: cs).takeWhile Char.isDigit
    if run ≠ [] ∧ decide ("小时前".toList <+: (c :: cs).drop run.length) then
      some (digitsToNat run)
    else find_hours_ago cs

/-- The `_extract_time_constraints` (on the raw, non-lowercased query): the
Python loop re-runs an identical inner chain for each matching pattern, so
it is equivalent to one guarded chain. -/
def extract_time_constraints (query : String) : Option TimeConstraints :=
  let q := query.toList
  if temporal_pattern_matches q then
    if containsSub q "最近" then some ⟨"recent", some 24⟩
    else if containsSub q "今天" then some ⟨"today", none⟩
    else if containsSub q "昨天" then some ⟨"yesterday", none⟩
    else if containsSub q "小时前" then
      match find_hours_ago q with
      | some n => some ⟨"hours_ago", some (n : ℚ)⟩
      | none => none
    else none
  else none

/-- The `_extract_importance_threshold` (same loop-to-chain equivalence). -/
def extract_importance_threshold (query : String) : ℚ :=
  let q := query.toList
  if (["重要", "关键", "核心", "主要", "首要", "必要", "详细", "具体",
       "全面", "完整", "简单", "大概", "基本", "一般"]).any
      (fun p => containsSub q p) then
    if ["重要", "关键", "核心"].any (fun p => containsSub q p) then 8/10
    else if ["详细", "具体", "全面"].any (fun p => containsSub q p) then 6/10
    else if ["简单", "大概", "基本"].any (fun p => containsSub q p) then 3/10
    else 5/10
  else 5/10

/-- The `_infer_memory_types`: the two `emotional_patterns` regexes each append
`"emotion"` when they match; `list(set(...))` modelled as first-occurrence
dedup. -/
def infer_memory_types (query : String) : List String :=
  let q := query.toList
  let l1 := ["fact"] ++
    (if ["喜欢", "讨厌", "爱", "恨", "开心", "难过", "愤怒", "害怕",
         "满意", "失望"].any (fun p => containsSub q p) then ["emotion"] else []) ++
    (if ["感觉", "觉得", "认为", "以为", "想", "希望"].any
        (fun p => containsSub q p) then ["emotion"] else [])
  let l2 := l1 ++
    (if ["如何", "怎么", "步骤", "过程", "方法"].any
        (fun p => containsSub q p) then ["process"] else [])
  let l3 := l2 ++
    (if ["关于", "是什么", "为什么", "解释"].any
        (fun p => containsSub q p) then ["meta"] else [])
  l3.dedup

/-- The `_determine_extraction_strategy`. -/
def determine_extraction_strategy (qt : QueryType)
    (keywords : List (List Char)) (tc : Option TimeConstraints) :
    ExtractionStrategy :=
  match qt with
  | .temporal => .time_based
  | .emotional => .type_based
  | .procedural => .type_based
  | _ =>
    if tc.isSome then .hybrid
    else if keywords.length ≤ 2 then .semantic_search
    else .keyword_based

/-- The result of `analyze_query` (the `entities` / `confidence` diagnostics
feed nothing in the extraction path and are omitted). -/
structure QueryAnalysis where
  query_type : QueryType
  keywords : List (List Char)
  time_constraints : Option TimeConstraints
  importance_threshold : ℚ
  memory_types : List String
  extraction_strategy : ExtractionStrategy

def analyze_query (query : String) : QueryAnalysis :=
  let keywords := extract_keywords query
  let tc := extract_time_constraints query
  let qt := classify_query_type query
  { query_type := qt
    keywords := keywords
    time_constraints := tc
    importance_threshold := extract_importance_threshold query
    memory_types := infer_memory_types query
    extraction_strategy := determine_extraction_strategy qt keywords tc }

/-! ### The retrieval pipeline behind `extract_memories`

The strategies read the flat `quintuples.json` list and the typed files;
both are supplied as an explicit state.  `math.exp` only produces the
`decayed_importance` annotations along this path (never read by the
relevance computation), so it is passed as an opaque oracle `ex : ℚ → ℚ` to
keep the pipeline computable. -/

structure MemoryState where
  flat : List Quintuple
  typed : MemoryType → List Quintuple

/-- Keyword match over the five fields as in
`query_quintuples_by_keywords`. -/
def kwMatches (q : Quintuple) (kw : List Char) : Bool :=
  decide (kw <:+: q.subject.toList) || decide (kw <:+: q.subject_type.toList) ||
  decide (kw <:+: q.predicate.toList) || decide (kw <:+: q.object.toList) ||
  decide (kw <:+: q.object_type.toList)

/-- The ℚ-oracle version of `apply_time_decay` used inside the computable
retrieval pipeline (`ex` stands for `math.exp`). -/
def apply_time_decay_q (ex : ℚ → ℚ) (now : ℚ) (q : Quintuple) : ℚ :=
  q.importance_score * max (1/10) (ex (-((now - q.timestamp) / (30 * 24 * 3600))))

/-- The `TimeAxisManager.filter_by_time_window` restricted to the `time_window`
parameter (the only one these call sites pass); `None` means no filter. -/
def filter_by_time_window (now : ℚ) (tw : Option ℚ) (qs : List Quintuple) :
    List Quintuple :=
  match tw with
  | none => qs
  | some w => qs.filter (fun q => now - q.timestamp ≤ w)

/-- Python truthiness of an optional float (`if time_window:`). -/
def truthyQ : Option ℚ → Bool
  | none => false
  | some w => w ≠ 0

/-- The `quintuple_graph.query_quintuples_by_keywords` (the file-backed query):
keyword filter over five fields, optional memory-type filter (skipped for an
empty list, Python truthiness), decayed-importance threshold filter, and the
`decayed_importance` annotation. -/
def query_quintuples_by_keywords (ex : ℚ → ℚ) (now : ℚ)
    (flat : List Quintuple) (keywords : List (List Char))
    (memory_types : List String) (threshold : ℚ) (tw : Option ℚ) :
    List Quintuple :=
  let qs := if truthyQ tw then filter_by_time_window now tw flat else flat
  qs.filterMap (fun q =>
    if keywords.any (kwMatches q) then
      if memory_types ≠ [] ∧ q.memory_type ∉ memory_types then none
      else
        let d := apply_time_decay_q ex now q
        if 0 < threshold ∧ d < threshold then none
        else some { q with decayed_importance := some d }
    else none)

/-- The `TimeAxisManager.get_memory_timeline`: window filter, decay and age
annotations, stable sort by timestamp descending. -/
def taxis_get_memory_timeline (ex : ℚ → ℚ) (now : ℚ) (qs : List Quintuple)
    (tw : Option ℚ) : List Quintuple :=
  let tl := (filter_by_time_window now tw qs).map (fun q =>
    { q with decayed_importance := some (apply_time_decay_q ex now q)
             age_hours := some ((now - q.timestamp) / 3600) })
  List.insertionSort (fun a b : Quintuple => b.timestamp ≤ a.timestamp) tl

/-- The `quintuple_graph.get_memory_timeline`: keyword filter (skipped for an
empty/None keyword list), memory-type filter, then the time-axis
timeline. -/
def graph_get_memory_timeline (ex : ℚ → ℚ) (now : ℚ) (flat : List Quintuple)
    (keywords : List (List Char)) (memory_types : List String)
    (tw : Option ℚ) : List Quintuple :=
  let f1 := if keywords ≠ [] then
      flat.filter (fun q => keywords.any (kwMatches q)) else flat
  let f2 := if memory_types ≠ [] then
      f1.filter (fun q => q.memory_type ∈ memory_types) else f1
  taxis_get_memory_timeline ex now f2 tw

/-- The `TypedMemoryStorage.get_memories_by_type` (no limit): importance filter
then stable descending sort by importance. -/
def get_memories_by_type (ms : List Quintuple) (minImp : ℚ) :
    List Quintuple :=
  List.insertionSort (fun a b : Quintuple => b.importance_score ≤ a.importance_score)
    (ms.filter (fun m => minImp ≤ m.importance_score))

/-- The `quintuple_graph.get_typed_memories` as called by
`_extract_type_based` (no limit): convert type names (dropping unknown
ones), gather per-type results, stable sort by importance descending. -/
def get_typed_memories (typed : MemoryType → List Quintuple)
    (memory_types : List String) (minImp : ℚ) : List Quintuple :=
  let enums := memory_types.filterMap MemoryType.ofString
  List.insertionSort (fun a b : Quintuple => b.importance_score ≤ a.importance_score)
    ((enums.map (fun mt => get_memories_by_type (typed mt) minImp)).flatten)

/-- The `IntelligentMemoryExtractor._deduplicate_quintuples`: first-seen wins on
the (subject, predicate, object) key. -/
def extractor_dedup : List Quintuple → List (String × String × String) →
    List Quintuple
  | [], _ => []
  | q :: rest, seen =>
    let k := (q.subject, q.predicate, q.object)
    if k ∈ seen then extractor_dedup rest seen
    else q :: extractor_dedup rest (k :: seen)

/-- The `_expand_keywords_semantically`'s hardcoded synonym table. -/
def synonyms (kw : List Char) : List (List Char) :=
  if kw = "学习".toList then ["学习", "研究", "掌握", "了解"].map String.toList
  else if kw = "工作".toList then
    ["工作", "上班", "职业", "事业"].map String.toList
  else if kw = "喜欢".toList then
    ["喜欢", "爱好", "热爱", "感兴趣"].map String.toList
  else if kw = "重要".toList then
    ["重要", "关键", "核心", "主要"].map String.toList
  else []

def expand_keywords_semantically (kws : List (List Char)) :
    List (List Char) :=
  (kws ++ (kws.map synonyms).flatten).dedup

def extract_keyword_based (ex : ℚ → ℚ) (now : ℚ) (st : MemoryState)
    (a : QueryAnalysis) : List Quintuple :=
  query_quintuples_by_keywords ex now st.flat a.keywords a.memory_types
    a.importance_threshold none

def extract_semantic_search (ex : ℚ → ℚ) (now : ℚ) (st : MemoryState)
    (a : QueryAnalysis) : List Quintuple :=
  let expanded := expand_keywords_semantically a.keywords
  extractor_dedup
    ((expanded.map (fun kw =>
      query_quintuples_by_keywords ex now st.flat [kw] a.memory_types
        a.importance_threshold none)).flatten) []

def extract_time_based (ex : ℚ → ℚ) (now : ℚ) (st : MemoryState)
    (a : QueryAnalysis) : List Quintuple :=
  let tw : Option ℚ :=
    match a.time_constraints with
    | some tc =>
      if tc.ctype = "recent" then some (tc.value.getD 24 * 3600)
      else if tc.ctype = "hours_ago" then some (tc.value.getD 24 * 3600)
      else none
    | none => none
  graph_get_memory_timeline ex now st.flat a.keywords a.memory_types tw

def extract_importance_based (ex : ℚ → ℚ) (now : ℚ) (st : MemoryState)
    (a : QueryAnalysis) : List Quintuple :=
  List.insertionSort (fun p q : Quintuple => q.importance_score ≤ p.importance_score)
    (extract_keyword_based ex now st a)

def extract_type_based (st : MemoryState) (a : QueryAnalysis) :
    List Quintuple :=
  get_typed_memories st.typed a.memory_types a.importance_threshold

def extract_hybrid (ex : ℚ → ℚ) (now : ℚ) (st : MemoryState)
    (a : QueryAnalysis) : List Quintuple :=
  extractor_dedup (extract_keyword_based ex now st a ++ extract_type_based st a) []

def dispatch_strategy (ex : ℚ → ℚ) (now : ℚ) (st : MemoryState)
    (a : QueryAnalysis) : List Quintuple :=
  match a.extraction_strategy with
  | .keyword_based => extract_keyword_based ex now st a
  | .semantic_search => extract_semantic_search ex now st a
  | .time_based => extract_time_based ex now st a
  | .importance_based => extract_importance_based ex now st a
  | .type_based => extract_type_based st a
  | .hybrid => extract_hybrid ex now st a

/-- The time-decay term of `_calculate_relevance_scores`: a LINEAR 30-day
ramp floored at 0.1 — `max(0.1, 1.0 - age/(30*24*3600))` — not the
exponential factor of the Time Axis Manager.  Stated over `ℝ` for
comparison with `calculate_time_decay_factor`. -/
noncomputable def extractor_time_decay (now ts : ℝ) : ℝ :=
  max (1/10) (1 - (now - ts) / (30 * 24 * 3600))

/-- One score of `_calculate_relevance_scores` (the division by
`len(analysis.keywords)` is the caller's responsibility — see
`calculate_relevance_scores` for the zero case). -/
def relevance_score (now : ℚ) (a : QueryAnalysis) (q : Quintuple) : ℚ :=
  let nmatched := (a.keywords.filter (fun kw =>
    decide (kw <:+: q.subject.toList) ∨ decide (kw <:+: q.predicate.toList) ∨
    decide (kw <:+: q.object.toList))).length
  let base := (nmatched : ℚ) / (a.keywords.length : ℚ) * (4/10) +
    q.importance_score * (3/10)
  let withTime := base +
    (if a.time_constraints.isSome then
       max (1/10) (1 - (now - q.timestamp) / (30 * 24 * 3600)) * (3/10)
     else 0)
  min withTime 1

/-- The `_calculate_relevance_scores`: per result quintuple, the keyword-overlap
fraction divides by `len(analysis.keywords)` — a `ZeroDivisionError`
(modelled as `none`) whenever the keyword list is empty and there is at
least one result to score. -/
def calculate_relevance_scores (now : ℚ) (qs : List Quintuple)
    (a : QueryAnalysis) : Option (List ℚ) :=
  match qs with
  | [] => some []
  | q :: rest =>
    if a.keywords.length = 0 then none
    else
      match calculate_relevance_scores now rest a with
      | none => none
      | some scores => some (relevance_score now a q :: scores)

/-- The `IntelligentMemoryExtractor.extract_memories`: analyze, dispatch the
strategy, score, stable-sort by score descending, truncate.  `none` models
the reachable-exception question (the only exception site modelled is the
relevance division). -/
def extract_memories (ex : ℚ → ℚ) (now : ℚ) (st : MemoryState)
    (query : String) (max_results : ℕ) :
    Option (List Quintuple × List ℚ) :=
  let a := analyze_query query
  let qs := dispatch_strategy ex now st a
  match calculate_relevance_scores now qs a with
  | none => none
  | some scores =>
    let sorted := List.insertionSort (fun p q : Quintuple × ℚ => q.2 ≤ p.2)
      (qs.zip scores)
    some ((sorted.take max_results).map Prod.fst,
          (sorted.take max_results).map Prod.snd)

/-! ### Concrete fixtures used by the counterexamples and witnesses -/

/-- A plain quintuple fixture builder. -/
def mkQ (s st_ p o ot : String) (ts : ℚ) (sid : String) (mt : String)
    (imp : ℚ) : Quintuple :=
  { subject := s, subject_type := st_, predicate := p, object := o,
    object_type := ot, timestamp := ts, session_id := sid, memory_type := mt,
    importance_score := imp }

/-- C2 fixture: a well-formed quintuple (non-empty head and tail). -/
def qGraph : Quintuple := mkQ "a" "t" "p" "b" "u" 0 "s" "fact" (1/2)

/-- C2 fixture: typed stores and the flat-file write succeed, a graph
backend is connected, and every graph merge raises. -/
def envGraphFail : GraphStoreEnv :=
  { typedStoreOk := fun _ => true, fileSaveOk := true,
    graph := some (fun _ => false) }

/-- C2 fixture: no graph backend (`graph is None`), everything else
succeeds. -/
def envNoGraph : GraphStoreEnv :=
  { typedStoreOk := fun _ => true, fileSaveOk := true, graph := none }

/-- C6 fixtures: two 100-day-old quintuples (timestamp 1 360 000 at
`now = 10 000 000`, i.e. 8 640 000 s = 100 days of age), one of type
"fact", one of type "process". -/
def qFact100d : Quintuple := mkQ "f" "t" "p" "o" "u" 1360000 "s" "fact" (1/2)

def qProc100d : Quintuple := mkQ "g" "t" "p" "o" "u" 1360000 "s" "process" (1/2)

def stC6 : TypedStorage :=
  { files := fun mt =>
      match mt with
      | .fact => [qFact100d]
      | .process => [qProc100d]
      | _ => []
    indices := fun _ => [] }

/-- C1 fixtures: four stores into the "fact" file.  `qA1` is stored just
inside the 365-day retention window (cutoff at `now1` is 464 000); by
`now2 = now1 + 200` it has aged out, so the save performed while storing
`qC1` silently drops it — leaving the in-memory index positions stale. -/
def qA1 : Quintuple := mkQ "a" "t" "p" "x" "u" 464100 "sa" "fact" (1/2)

def qB1 : Quintuple := mkQ "b" "t" "p" "x" "u" 32000000 "sb" "fact" (6/10)

def qC1 : Quintuple := mkQ "c" "t" "p" "x" "u" 32000200 "sc" "fact" (1/2)

/-- Same five-field key as `qB1`, fresher timestamp, updated importance. -/
def qB2 : Quintuple := mkQ "b" "t" "p" "x" "u" 32000200 "sb2" "fact" (9/10)

def stC1_1 : TypedStorage := (store_memory TypedStorage.empty 32000000 qA1).1

def stC1_2 : TypedStorage := (store_memory stC1_1 32000000 qB1).1

def stC1_3 : TypedStorage := (store_memory stC1_2 32000200 qC1).1

def stC1_4 : TypedStorage := (store_memory stC1_3 32000200 qB2).1

/-- C4 fixtures: two quintuples with the identical five-field key;
A carries importance 0.9 and session "s1", B importance 0.5 and
session "s2". -/
def qA4 : Quintuple := mkQ "x" "t" "p" "y" "u" 1000 "s1" "fact" (9/10)

def qB4 : Quintuple := mkQ "x" "t" "p" "y" "u" 1001 "s2" "fact" (1/2)

/-- C3 fixtures: three quintuples identical except for the predicate and
metadata.  The predicates "ax"/"xy"/"yz" have pairwise SequenceMatcher
ratios 0.5 / 0.5 / 0.0, so the composite similarities are
sim(A,B) = sim(B,C) = 0.85 ≥ 0.8 but sim(A,C) = 0.7 < 0.8 — similarity is
not transitive, and B (the latest timestamp) is the merge base of BOTH
groups. -/
def qD_A : Quintuple := mkQ "s" "t" "ax" "o" "u" 1 "s1" "fact" (1/2)

def qD_B : Quintuple := mkQ "s" "t" "xy" "o" "u" 3 "s2" "fact" (6/10)

def qD_C : Quintuple := mkQ "s" "t" "yz" "o" "u" 2 "s3" "fact" (7/10)

/-- The merge of the first dedup group {A, B}: based on B (latest
timestamp), importance `max(0.5, 0.6)`, sessions {s1, s2}. -/
def qD_M1 : Quintuple :=
  { mkQ "s" "t" "xy" "o" "u" 3 "s2" "fact" (6/10) with
      session_ids := some ["s1", "s2"], merged_from := some 2,
      merge_timestamp := some 3 }

/-- The merge of the second dedup group {C, B}: ALSO based on B — the two
groups overlap in B, so the two merged outputs share all five string
fields. -/
def qD_M2 : Quintuple :=
  { mkQ "s" "t" "xy" "o" "u" 3 "s2" "fact" (7/10) with
      session_ids := some ["s3", "s2"], merged_from := some 2,
      merge_timestamp := some 3 }

/-- C10 fixture: a query analysis with an empty keyword list (the shape
`_calculate_relevance_scores` cannot handle with a non-empty result
list). -/
def aEmptyKw : QueryAnalysis :=
  { query_type := .factual, keywords := [], time_constraints := none,
    importance_threshold := 1/2, memory_types := ["fact"],
    extraction_strategy := .semantic_search }

/-- C10 fixture: an empty memory state. -/
def stEmpty : MemoryState := { flat := [], typed := fun _ => [] }

/-- The classification/time-constraint trigger patterns whose presence in a
query forces at least one surviving keyword token (each is non-empty,
whitespace-free, made of word characters, at least 2 characters long, and
is not — nor fits inside a 2-character — stop word). -/
def trigger_patterns : List String :=
  ["什么时候", "何时", "多久", "最近", "今天", "昨天",
   "感觉", "喜欢", "讨厌", "开心", "难过",
   "如何", "怎么", "步骤", "过程", "方法", "小时前"]

end SummerMemory

namespace SummerMemory

/-! ## Theorems -/

/-- C8: the question "最近做了什么？" is classified as a temporal query and
assigned the time-based extraction strategy, and "你喜欢什么？" is
classified as an emotional query and assigned the type-based strategy, via
`analyze_query` (`_classify_query_type` + `_determine_extraction_strategy`). -/
theorem c8_query_strategy_selection :
    (analyze_query "最近做了什么？").query_type = QueryType.temporal ∧
    (analyze_query "最近做了什么？").extraction_strategy =
      ExtractionStrategy.time_based ∧
    (analyze_query "你喜欢什么？").query_type = QueryType.emotional ∧
    (analyze_query "你喜欢什么？").extraction_strategy =
      ExtractionStrategy.type_based := by
  refine ⟨?_, ?_, ?_, ?_⟩ <;> decide

/-- C2 counterexample: with a connected graph backend, one quintuple with
non-empty subject and object, all typed stores succeeding and the file
write succeeding, an exception inside the per-quintuple `graph.merge` block
makes `store_quintuples` return `False` — even though every file write
succeeded — because the function returns
`storage_success and graph_success`. -/
theorem c2_counterexample :
    envGraphFail.fileSaveOk = true ∧
    (∀ q, envGraphFail.typedStoreOk q = true) ∧
    store_quintuples envGraphFail [qGraph] = false := by
  refine ⟨rfl, fun _ => rfl, ?_⟩
  decide

/-- C2 amended: absence of the graph backend (`graph is None`) indeed never
makes `store_quintuples` fail: in that case the result is exactly "all
typed-storage stores succeeded and the flat-file write succeeded".  (But a
merge exception with a connected backend does make it return `False`, see
the counterexample.) -/
theorem c2_store_degrades_without_graph (env : GraphStoreEnv)
    (new : List Quintuple) (hg : env.graph = none) :
    store_quintuples env new = (new.all env.typedStoreOk && env.fileSaveOk) := by
  unfold store_quintuples
  rw [hg]
  cases h : env.fileSaveOk <;> simp [h]

/-- C2 witness: the amended theorem at the concrete no-graph environment
and the singleton batch. -/
theorem c2_witness :
    envNoGraph.graph = none ∧ store_quintuples envNoGraph [qGraph] = true := by
  refine ⟨rfl, ?_⟩
  rw [c2_store_degrades_without_graph envNoGraph [qGraph] rfl]
  decide

/-- C5: every importance score produced by `calculate_basic_importance` is
clamped into [0, 1]; and for any quintuple whose creation timestamp is not
in the future, the decay factor of the Time Axis Manager lies in [0.1, 1],
so the transient decayed importance lies in [0, importance] and never drops
below 0.1 × importance. -/
theorem c5_importance_and_decay_bounds :
    (∀ (q : Quintuple) (ctx : String) (r : ℚ),
      calculate_basic_importance q ctx = some r → 0 ≤ r ∧ r ≤ 1) ∧
    (∀ now ts imp : ℝ, ts ≤ now → 0 ≤ imp →
      1/10 ≤ calculate_time_decay_factor now ts ∧
      calculate_time_decay_factor now ts ≤ 1 ∧
      0 ≤ apply_time_decay now ts imp ∧
      apply_time_decay now ts imp ≤ imp ∧
      1/10 * imp ≤ apply_time_decay now ts imp) := by
  constructor
  · intro q ctx r h
    unfold calculate_basic_importance at h
    have clamp : ∀ x : ℚ, some (min (max x 0) 1) = some r → 0 ≤ r ∧ r ≤ 1 := by
      intro x hx
      rw [← Option.some_injective _ hx]
      exact ⟨le_min (le_max_right _ _) zero_le_one, min_le_right _ _⟩
    dsimp only at h
    repeat' split at h
    all_goals first
      | exact clamp _ h
      | simp at h
  · intro now ts imp hts himp
    have hhl : (0:ℝ) < half_life := by unfold half_life; norm_num
    have hexp0 : -((now - ts) / half_life) ≤ 0 := by
      apply neg_nonpos_of_nonneg
      exact div_nonneg (by linarith) hhl.le
    have hexple : Real.exp (-((now - ts) / half_life)) ≤ 1 :=
      Real.exp_le_one_iff.mpr hexp0
    have hfac_lo : 1/10 ≤ calculate_time_decay_factor now ts := le_max_left _ _
    have hfac_hi : calculate_time_decay_factor now ts ≤ 1 := by
      unfold calculate_time_decay_factor
      exact max_le (by norm_num) hexple
    have hfac_pos : (0:ℝ) ≤ calculate_time_decay_factor now ts := by linarith
    refine ⟨hfac_lo, hfac_hi, ?_, ?_, ?_⟩
    · exact mul_nonneg himp hfac_pos
    · calc imp * calculate_time_decay_factor now ts
          ≤ imp * 1 := by
            exact mul_le_mul_of_nonneg_left hfac_hi himp
        _ = imp := mul_one imp
    · calc (1:ℝ)/10 * imp = imp * (1/10) := by ring
        _ ≤ imp * calculate_time_decay_factor now ts :=
            mul_le_mul_of_nonneg_left hfac_lo himp

/-- C5 witness: the bounds at a concrete fresh quintuple (`now = ts = 0`,
stored importance 1/2; the factor evaluates to `max 0.1 (exp 0) = 1` and the
decayed importance to 1/2), and the basic-importance clamp at a concrete
quintuple evaluating to 4/5. -/
theorem c5_witness :
    (calculate_basic_importance (mkQ "X" "人物" "p" "y" "u" 0 "s" "fact" (1/2)) ""
        = some (4/5)) ∧
    (0 ≤ (4/5:ℚ) ∧ (4/5:ℚ) ≤ 1) ∧
    calculate_time_decay_factor 0 0 = 1 ∧
    apply_time_decay 0 0 (1/2) = 1/2 ∧
    ((0:ℝ) ≤ 0 ∧ (0:ℝ) ≤ 1/2) ∧
    (1/10 ≤ calculate_time_decay_factor 0 0 ∧
      calculate_time_decay_factor 0 0 ≤ 1 ∧
      0 ≤ apply_time_decay 0 0 (1/2) ∧
      apply_time_decay 0 0 (1/2) ≤ 1/2 ∧
      1/10 * (1/2:ℝ) ≤ apply_time_decay 0 0 (1/2)) := by
  have hfac : calculate_time_decay_factor 0 0 = 1 := by
    unfold calculate_time_decay_factor
    norm_num [Real.exp_zero]
  have heval : calculate_basic_importance
      (mkQ "X" "人物" "p" "y" "u" 0 "s" "fact" (1/2)) "" = some (4/5) := by
    unfold calculate_basic_importance mkQ
    norm_num [show ("人物" : String) ∈ important_entities from by decide,
      show ("p" : String) ∉ important_relations from by decide,
      show ('X'.isUpper = true) from by decide,
      show ¬ (100 < ("" : String).length) from by decide,
      max_eq_left, min_eq_left]
  refine ⟨heval,
    c5_importance_and_decay_bounds.1 _ "" (4/5) heval,
    hfac, ?_, ⟨le_refl 0, by norm_num⟩,
    c5_importance_and_decay_bounds.2 0 0 (1/2) (le_refl 0) (by norm_num)⟩
  unfold apply_time_decay
  rw [hfac]; ring

/-- C7 counterexample: at age exactly 30 days the relevance-ranking decay
term of `_calculate_relevance_scores` is `max(0.1, 1 − 1) = 0.1`, while the
Time Axis Manager's factor is `max(0.1, e⁻¹) = e⁻¹ ≈ 0.368`; the two decay
functions are not extensionally equal. -/
theorem c7_counterexample :
    extractor_time_decay (30*24*3600) 0 ≠
      calculate_time_decay_factor (30*24*3600) 0 := by
  have hexp : (1:ℝ)/10 < Real.exp (-1) := by
    rw [Real.exp_neg]
    rw [show (1:ℝ)/10 = 10⁻¹ by norm_num]
    apply inv_strictAnti₀ (Real.exp_pos 1)
    calc Real.exp 1 < 2.7182818286 := Real.exp_one_lt_d9
      _ < 10 := by norm_num
  have h1 : extractor_time_decay (30*24*3600) 0 = 1/10 := by
    unfold extractor_time_decay
    norm_num
  have h2 : calculate_time_decay_factor (30*24*3600) 0 = Real.exp (-1) := by
    unfold calculate_time_decay_factor half_life
    rw [show -((30*24*3600 - 0) / (30 * 24 * 3600) : ℝ) = -1 by norm_num]
    exact max_eq_right hexp.le
  rw [h1, h2]
  exact ne_of_lt hexp

/-- C7 amended: the ranking decay term is the linear ramp
`max(0.1, 1 − age/30d)`, not the exponential factor of §4.4; the two share
the 30-day constant and the 0.1 floor, agree for a fresh quintuple
(age 0), and the linear term never exceeds the exponential factor
(`1 − x ≤ e^{−x}`) — but they differ at intermediate ages (see the
counterexample). -/
theorem c7_ranking_decay_is_linear_lower_bound (now ts : ℝ) :
    extractor_time_decay now ts ≤ calculate_time_decay_factor now ts ∧
    extractor_time_decay now now = 1 ∧
    calculate_time_decay_factor now now = 1 := by
  refine ⟨?_, ?_, ?_⟩
  · unfold extractor_time_decay calculate_time_decay_factor half_life
    apply max_le_max (le_refl _)
    have := Real.add_one_le_exp (-((now - ts) / (30 * 24 * 3600)))
    linarith
  · unfold extractor_time_decay
    norm_num
  · unfold calculate_time_decay_factor
    norm_num [Real.exp_zero]

/-- C9 counterexample: not every quintuple with an empty subject or object
reaches the indexing error — Python's `or` short-circuits, so a quintuple
with an uppercase-initial subject and an EMPTY object is scored without
error. -/
theorem c9_counterexample :
    (mkQ "A" "t" "p" "" "u" 0 "s" "fact" (1/2)).object = "" ∧
    (calculate_basic_importance (mkQ "A" "t" "p" "" "u" 0 "s" "fact" (1/2))
        "").isSome = true := by
  exact ⟨rfl, rfl⟩

/-- C9 amended: `calculate_basic_importance` is not total: the proper-noun
bonus indexes the first character of the entity names, so an empty subject
always raises `IndexError`, and an empty object raises whenever the
subject's first character is not uppercase (short-circuit `or`); with both
names non-empty the computation always succeeds.  The undocumented
precondition is therefore: subject non-empty, and (subject uppercase-initial
or object non-empty). -/
theorem c9_basic_importance_not_total :
    (∀ (q : Quintuple) (ctx : String), q.subject = "" →
      calculate_basic_importance q ctx = none) ∧
    (∀ (q : Quintuple) (ctx : String) (c : Char),
      q.subject.toList.head? = some c → c.isUpper = false → q.object = "" →
      calculate_basic_importance q ctx = none) ∧
    (∀ (q : Quintuple) (ctx : String), q.subject ≠ "" → q.object ≠ "" →
      (calculate_basic_importance q ctx).isSome = true) := by
  have toList_nil : ∀ s : String, s = "" → s.toList = [] := by
    intro s hs; rw [hs]; rfl
  have toList_ne : ∀ s : String, s ≠ "" → s.toList ≠ [] := by
    intro s hs hl
    exact hs (by cases s with | mk d => cases hl; rfl)
  refine ⟨?_, ?_, ?_⟩
  · intro q ctx hq
    unfold calculate_basic_importance
    rw [toList_nil _ hq]
  · intro q ctx c hc hup ho
    unfold calculate_basic_importance
    rcases hs : q.subject.toList with _ | ⟨c', cs⟩
    · rfl
    · rw [hs] at hc
      simp only [List.head?] at hc
      cases hc
      dsimp only
      rw [if_neg (by simp [hup]), toList_nil _ ho]
  · intro q ctx hq ho
    unfold calculate_basic_importance
    rcases hs : q.subject.toList with _ | ⟨c, cs⟩
    · exact absurd hs (toList_ne _ hq)
    · dsimp only
      by_cases hu : c.isUpper
      · rw [if_pos hu]; rfl
      · rw [if_neg hu]
        rcases hob : q.object.toList with _ | ⟨d, ds⟩
        · exact absurd hob (toList_ne _ ho)
        · rfl

/-- Whatever `_save_memories` writes is a subset of the retention-filtered
input: the size limit only takes a prefix of a permutation. -/
theorem mem_of_mem_save_memories {now : ℚ} {mt : MemoryType}
    {ms : List Quintuple} {q : Quintuple} (h : q ∈ save_memories now mt ms) :
    q ∈ apply_retention_policy now (retention_days mt) ms := by
  unfold save_memories at h
  dsimp only at h
  split at h
  · unfold apply_size_limit at h
    split at h
    · exact h
    · exact ((List.perm_insertionSort _ _).mem_iff).mp (List.mem_of_mem_take h)
  · exact h

/-- Membership in a retention-filtered list yields the cutoff bound. -/
theorem timestamp_of_mem_retention {now days : ℚ} {ms : List Quintuple}
    {q : Quintuple} (hd : ¬ days ≤ 0)
    (h : q ∈ apply_retention_policy now days ms) :
    now - days * 24 * 3600 ≤ q.timestamp := by
  unfold apply_retention_policy at h
  rw [if_neg hd] at h
  exact of_decide_eq_true (List.mem_filter.mp h).2

/-- How one `cleanup` iteration affects a given type-file slot. -/
theorem cleanup_step_files (st : TypedStorage) (now : ℚ)
    (mt mt' : MemoryType) (acc : TypedStorage × ℕ) :
    (cleanup_step st now mt' acc).1.files mt =
      if mt' = mt then
        (if (apply_retention_policy now (retention_days mt)
              (st.files mt)).length < (st.files mt).length then
          save_memories now mt
            (apply_retention_policy now (retention_days mt) (st.files mt))
         else acc.1.files mt)
      else acc.1.files mt := by
  by_cases he : mt' = mt
  · subst he
    rw [if_pos rfl]
    unfold cleanup_step updAt
    dsimp only
    split
    · simp
    · simp [*]
  · rw [if_neg he]
    unfold cleanup_step updAt
    dsimp only
    split
    · simp [if_neg (Ne.symm he)]
    · rfl

/-- The net effect of `cleanup_old_memories` on each type-file. -/
theorem cleanup_files_eq (st : TypedStorage) (now : ℚ) (mt : MemoryType) :
    (cleanup_old_memories st now).1.files mt =
      if (apply_retention_policy now (retention_days mt)
            (st.files mt)).length < (st.files mt).length then
        save_memories now mt
          (apply_retention_policy now (retention_days mt) (st.files mt))
      else st.files mt := by
  cases mt <;>
    simp [cleanup_old_memories, cleanup_step_files]

/-- C6: after `cleanup_old_memories`, every quintuple remaining in each
type-file has age (now − timestamp) at most that type's configured
retention period (365/90/180/730 days, in seconds). -/
theorem c6_retention_enforcement (st : TypedStorage) (now : ℚ)
    (mt : MemoryType) (q : Quintuple)
    (hq : q ∈ (cleanup_old_memories st now).1.files mt) :
    now - q.timestamp ≤ retention_days mt * 24 * 3600 := by
  have hd : ¬ retention_days mt ≤ 0 := by
    cases mt <;> norm_num [retention_days]
  rw [cleanup_files_eq st now mt] at hq
  have hrw : apply_retention_policy now (retention_days mt) (st.files mt) =
      (st.files mt).filter
        (fun m => now - retention_days mt * 24 * 3600 ≤ m.timestamp) := by
    unfold apply_retention_policy
    rw [if_neg hd]
  have hts : now - retention_days mt * 24 * 3600 ≤ q.timestamp := by
    split at hq
    · exact timestamp_of_mem_retention hd (mem_of_mem_save_memories hq)
    · rename_i hnot
      rw [hrw] at hnot
      have hsub := List.filter_sublist (l := st.files mt)
        (p := fun m => now - retention_days mt * 24 * 3600 ≤ m.timestamp)
      have heq := hsub.eq_of_length
        (le_antisymm hsub.length_le (Nat.le_of_not_lt hnot))
      exact of_decide_eq_true (List.filter_eq_self.mp heq q hq)
  linarith

/-- The `store_memory` on a key absent from the index: append then save. -/
theorem store_memory_append (st : TypedStorage) (now : ℚ) (q : Quintuple)
    (mt : MemoryType) (hmt : MemoryType.ofString q.memory_type = some mt)
    (hlk : (st.indices mt).lookup (get_memory_key q) = none) :
    store_memory st now q =
      ({ files := updAt st.files mt (save_memories now mt (st.files mt ++ [q])),
         indices := updAt st.indices mt
           ((get_memory_key q, (st.files mt).length) :: st.indices mt) },
       true) := by
  unfold store_memory
  rw [hmt]
  dsimp only
  rw [hlk]

/-- The `store_memory` on an indexed key whose recorded position is in range:
overwrite that position then save. -/
theorem store_memory_update (st : TypedStorage) (now : ℚ) (q : Quintuple)
    (mt : MemoryType) (i : ℕ)
    (hmt : MemoryType.ofString q.memory_type = some mt)
    (hlk : (st.indices mt).lookup (get_memory_key q) = some i)
    (hlt : i < (st.files mt).length) :
    store_memory st now q =
      ({ st with
          files := updAt st.files mt (save_memories now mt ((st.files mt).set i q)) },
       true) := by
  unfold store_memory
  rw [hmt]
  dsimp only
  rw [hlk]
  dsimp only
  rw [if_pos hlt]

/-- The `_save_memories` is the identity on a list of fresh-enough records that
fits under the size cap. -/
theorem save_memories_id (now : ℚ) (mt : MemoryType) (ms : List Quintuple)
    (h : ∀ q ∈ ms, now - retention_days mt * 24 * 3600 ≤ q.timestamp)
    (hlen : ms.length ≤ max_size mt) :
    save_memories now mt ms = ms := by
  have hret : apply_retention_policy now (retention_days mt) ms = ms := by
    unfold apply_retention_policy
    split
    · rfl
    · exact List.filter_eq_self.mpr (fun a ha => decide_eq_true (h a ha))
  unfold save_memories
  dsimp only
  rw [hret, if_neg (not_lt.mpr hlen)]

/-- C1: the merge-key invariant is violated by `store_memory`.  The
in-memory index records list positions at insertion time, but
`_save_memories` re-filters the list by retention on every write without
rebuilding the index; once a retention drop shifts positions, an "update in
place" writes to the wrong slot.  After the four stores
`qA1, qB1, qC1, qB2` (where storing `qC1` silently drops the aged-out
`qA1`), the fact file holds TWO records with the identical
(subject, subject_type, predicate, object, object_type) key — the store of
`qB2` (same key as `qB1`) overwrote `qC1` instead of `qB1` and reported
success. -/
theorem c1_store_memory_duplicate_key :
    (stC1_4.files MemoryType.fact).map (fun q =>
        (q.subject, q.subject_type, q.predicate, q.object, q.object_type)) =
      [("b", "t", "p", "x", "u"), ("b", "t", "p", "x", "u")] ∧
    (store_memory stC1_3 32000200 qB2).2 = true := by
  have h1 := store_memory_append TypedStorage.empty 32000000 qA1 .fact rfl
    (by decide)
  have h1f : stC1_1.files MemoryType.fact = [qA1] := by
    rw [stC1_1, h1]
    show save_memories 32000000 MemoryType.fact ([] ++ [qA1]) = [qA1]
    apply save_memories_id
    · intro q hq
      rw [List.nil_append, List.mem_singleton] at hq
      subst hq
      norm_num [qA1, mkQ, retention_days]
    · decide
  have h1i : stC1_1.indices MemoryType.fact = [("a|p|x", 0)] := by
    rw [stC1_1, h1]
    decide
  have h2 := store_memory_append stC1_1 32000000 qB1 .fact rfl
    (by rw [h1i]; decide)
  have h2f : stC1_2.files MemoryType.fact = [qA1, qB1] := by
    rw [stC1_2, h2]
    show save_memories 32000000 MemoryType.fact
      (stC1_1.files MemoryType.fact ++ [qB1]) = _
    rw [h1f]
    show save_memories 32000000 MemoryType.fact [qA1, qB1] = _
    apply save_memories_id
    · intro q hq
      rcases List.mem_pair.mp hq with h | h <;> subst h <;>
        norm_num [qA1, qB1, mkQ, retention_days]
    · decide
  have h2i : stC1_2.indices MemoryType.fact = [("b|p|x", 1), ("a|p|x", 0)] := by
    rw [stC1_2, h2]
    show (get_memory_key qB1, (stC1_1.files MemoryType.fact).length) ::
      stC1_1.indices MemoryType.fact = _
    rw [h1f, h1i]
    decide
  have h3 := store_memory_append stC1_2 32000200 qC1 .fact rfl
    (by rw [h2i]; decide)
  have h3f : stC1_3.files MemoryType.fact = [qB1, qC1] := by
    rw [stC1_3, h3]
    show save_memories 32000200 MemoryType.fact
      (stC1_2.files MemoryType.fact ++ [qC1]) = _
    rw [h2f]
    show save_memories 32000200 MemoryType.fact [qA1, qB1, qC1] = [qB1, qC1]
    unfold save_memories
    have hret : apply_retention_policy 32000200 (retention_days .fact)
        [qA1, qB1, qC1] = [qB1, qC1] := by
      unfold apply_retention_policy
      norm_num [qA1, qB1, qC1, mkQ, retention_days]
    dsimp only
    rw [hret]
    norm_num [max_size]
  have h3i : stC1_3.indices MemoryType.fact =
      [("c|p|x", 2), ("b|p|x", 1), ("a|p|x", 0)] := by
    rw [stC1_3, h3]
    show (get_memory_key qC1, (stC1_2.files MemoryType.fact).length) ::
      stC1_2.indices MemoryType.fact = _
    rw [h2f, h2i]
    decide
  have h4 := store_memory_update stC1_3 32000200 qB2 .fact 1 rfl
    (by rw [h3i]; decide) (by rw [h3f]; decide)
  have h4f : stC1_4.files MemoryType.fact = [qB1, qB2] := by
    rw [stC1_4, h4]
    show save_memories 32000200 MemoryType.fact
      ((stC1_3.files MemoryType.fact).set 1 qB2) = _
    rw [h3f]
    show save_memories 32000200 MemoryType.fact [qB1, qB2] = _
    apply save_memories_id
    · intro q hq
      rcases List.mem_pair.mp hq with h | h <;> subst h <;>
        norm_num [qB1, qB2, mkQ, retention_days]
    · decide
  refine ⟨by rw [h4f]; rfl, ?_⟩
  rw [h4]

/-- The exact-signature fast pass keeps only the first of two records with
equal signatures. -/
theorem fast_dedup_pair (A B : Quintuple)
    (hsig : get_quintuple_signature A = get_quintuple_signature B) :
    fast_deduplicate [A, B] = [A] := by
  simp [fast_deduplicate, fastDedupGo, ← hsig]

/-- Semantic dedup of a singleton is the singleton: the only candidate index
is the target itself, which `quintuple is not target_quintuple` skips. -/
theorem dedup_singleton (A : Quintuple) : deduplicate_quintuples [A] = [A] := by
  have hr : List.range 1 = [0] := rfl
  simp [deduplicate_quintuples, dedupGo, find_similar_quintuples, hr]

/-- C4 counterexample: storing A (importance 0.9, session "s1") then B with
the identical five-field key (importance 0.5, session "s2") merges nothing.
In the flat `quintuples.json` path (`smart_deduplicate` of the combined
list) the surviving single record is A unchanged — importance 0.9 but no
`session_ids` field at all, so "s2" is lost; in the typed-storage path the
single record is B wholesale — importance 0.5, not the maximum 0.9. -/
theorem c4_counterexample :
    smart_deduplicate [qA4, qB4] = [qA4] ∧
    qA4.session_ids = none ∧
    qA4.session_id = "s1" ∧
    (store_memory (store_memory TypedStorage.empty 2000 qA4).1 2000
        qB4).1.files MemoryType.fact = [qB4] ∧
    qB4.importance_score = 1/2 := by
  have hsig : get_quintuple_signature qA4 = get_quintuple_signature qB4 := by
    decide
  have hflat : smart_deduplicate [qA4, qB4] = [qA4] := by
    unfold smart_deduplicate
    rw [fast_dedup_pair qA4 qB4 hsig, dedup_singleton]
  have h1 := store_memory_append TypedStorage.empty 2000 qA4 .fact rfl
    (by decide)
  have h1f : (store_memory TypedStorage.empty 2000 qA4).1.files
      MemoryType.fact = [qA4] := by
    rw [h1]
    show save_memories 2000 MemoryType.fact ([] ++ [qA4]) = [qA4]
    apply save_memories_id
    · intro q hq
      rw [List.nil_append, List.mem_singleton] at hq
      subst hq
      norm_num [qA4, mkQ, retention_days]
    · decide
  have h1i : (store_memory TypedStorage.empty 2000 qA4).1.indices
      MemoryType.fact = [("x|p|y", 0)] := by
    rw [h1]
    decide
  have h2 := store_memory_update (store_memory TypedStorage.empty 2000 qA4).1
    2000 qB4 .fact 0 rfl (by rw [h1i]; decide) (by rw [h1f]; decide)
  have h2f : (store_memory (store_memory TypedStorage.empty 2000 qA4).1 2000
      qB4).1.files MemoryType.fact = [qB4] := by
    rw [h2]
    show save_memories 2000 MemoryType.fact
      (((store_memory TypedStorage.empty 2000 qA4).1.files
        MemoryType.fact).set 0 qB4) = _
    rw [h1f]
    show save_memories 2000 MemoryType.fact [qB4] = _
    apply save_memories_id
    · intro q hq
      rw [List.mem_singleton] at hq
      subst hq
      norm_num [qB4, mkQ, retention_days]
    · decide
  exact ⟨hflat, rfl, rfl, h2f, rfl⟩

/-- C4 amended: two stores under one exact dedup key leave exactly one
record, but no field-level merge happens anywhere.  On the flat-file path,
`fast_deduplicate` silently drops the second record before the semantic
merge can run, so the first record survives unchanged (its importance and
session only); on the typed-storage path the second record overwrites the
first wholesale.  The max-importance / union-of-sessions behaviour of
`merge_similar_quintuples` is not triggered by identical keys. -/
theorem c4_store_then_store_same_key (A B : Quintuple) (now : ℚ)
    (hsig : get_quintuple_signature A = get_quintuple_signature B)
    (hAmt : A.memory_type = "fact") (hBmt : B.memory_type = "fact")
    (hkey : get_memory_key A = get_memory_key B)
    (hAts : now - 365 * 24 * 3600 ≤ A.timestamp)
    (hBts : now - 365 * 24 * 3600 ≤ B.timestamp) :
    smart_deduplicate [A, B] = [A] ∧
    (store_memory (store_memory TypedStorage.empty now A).1 now B).1.files
      MemoryType.fact = [B] := by
  constructor
  · unfold smart_deduplicate
    rw [fast_dedup_pair A B hsig, dedup_singleton]
  · have h1 := store_memory_append TypedStorage.empty now A .fact
      (by rw [hAmt]; rfl) rfl
    have h1f : (store_memory TypedStorage.empty now A).1.files
        MemoryType.fact = [A] := by
      rw [h1]
      show save_memories now MemoryType.fact ([] ++ [A]) = [A]
      apply save_memories_id
      · intro q hq
        rw [List.nil_append, List.mem_singleton] at hq
        subst hq
        rw [show retention_days MemoryType.fact = 365 from rfl]
        linarith
      · rw [List.nil_append]
        norm_num [max_size]
    have h1i : (store_memory TypedStorage.empty now A).1.indices
        MemoryType.fact = [(get_memory_key A, 0)] := by
      rw [h1]
      rfl
    have h2 := store_memory_update (store_memory TypedStorage.empty now A).1
      now B .fact 0 (by rw [hBmt]; rfl)
      (by rw [h1i, ← hkey]; simp [List.lookup])
      (by rw [h1f]; norm_num)
    rw [h2]
    show save_memories now MemoryType.fact
      (((store_memory TypedStorage.empty now A).1.files
        MemoryType.fact).set 0 B) = _
    rw [h1f]
    show save_memories now MemoryType.fact [B] = _
    apply save_memories_id
    · intro q hq
      rw [List.mem_singleton] at hq
      subst hq
      rw [show retention_days MemoryType.fact = 365 from rfl]
      linarith
    · norm_num [max_size]

/-- C4 witness: the amended theorem at the concrete 0.9/"s1" then 0.5/"s2"
pair. -/
theorem c4_witness :
    get_quintuple_signature qA4 = get_quintuple_signature qB4 ∧
    get_memory_key qA4 = get_memory_key qB4 ∧
    smart_deduplicate [qA4, qB4] = [qA4] ∧
    (store_memory (store_memory TypedStorage.empty 2000 qA4).1 2000
        qB4).1.files MemoryType.fact = [qB4] := by
  have h := c4_store_then_store_same_key qA4 qB4 2000 (by decide) rfl rfl
    (by decide) (by norm_num [qA4, mkQ]) (by norm_num [qB4, mkQ])
  exact ⟨by decide, by decide, h.1, h.2⟩

/-- Field similarity of identical one-character strings. -/
theorem css_s : calculate_string_similarity "s" "s" = 1 := by
  have h : matchTotal ['s'] ['s'] = 1 := by decide
  norm_num [calculate_string_similarity, smRatio, h]

theorem css_t : calculate_string_similarity "t" "t" = 1 := by
  have h : matchTotal ['t'] ['t'] = 1 := by decide
  norm_num [calculate_string_similarity, smRatio, h]

theorem css_o : calculate_string_similarity "o" "o" = 1 := by
  have h : matchTotal ['o'] ['o'] = 1 := by decide
  norm_num [calculate_string_similarity, smRatio, h]

theorem css_u : calculate_string_similarity "u" "u" = 1 := by
  have h : matchTotal ['u'] ['u'] = 1 := by decide
  norm_num [calculate_string_similarity, smRatio, h]

theorem css_xy_xy : calculate_string_similarity "xy" "xy" = 1 := by
  have h : matchTotal ['x', 'y'] ['x', 'y'] = 2 := by decide
  norm_num [calculate_string_similarity, smRatio, h]

/-- Strings "ax" and "xy" share the single character x: ratio 2·1/4 = 1/2. -/
theorem css_ax_xy : calculate_string_similarity "ax" "xy" = 1/2 := by
  have h : matchTotal ['a', 'x'] ['x', 'y'] = 1 := by decide
  norm_num [calculate_string_similarity, smRatio, h]

theorem css_xy_yz : calculate_string_similarity "xy" "yz" = 1/2 := by
  have h : matchTotal ['x', 'y'] ['y', 'z'] = 1 := by decide
  norm_num [calculate_string_similarity, smRatio, h]

theorem css_yz_xy : calculate_string_similarity "yz" "xy" = 1/2 := by
  have h : matchTotal ['y', 'z'] ['x', 'y'] = 1 := by decide
  norm_num [calculate_string_similarity, smRatio, h]

/-- Strings "ax" and "yz" are disjoint: ratio 0. -/
theorem css_ax_yz : calculate_string_similarity "ax" "yz" = 0 := by
  have h : matchTotal ['a', 'x'] ['y', 'z'] = 0 := by decide
  norm_num [calculate_string_similarity, smRatio, h]

theorem css_yz_ax : calculate_string_similarity "yz" "ax" = 0 := by
  have h : matchTotal ['y', 'z'] ['a', 'x'] = 0 := by decide
  norm_num [calculate_string_similarity, smRatio, h]

/-- Composite similarities of the C3 fixtures: A~B and C~B are above the
0.8 threshold, A and C are not. -/
theorem simD_AB : calculate_semantic_similarity qD_A qD_B = 17/20 := by
  simp only [calculate_semantic_similarity, qD_A, qD_B, mkQ, css_s, css_t,
    css_o, css_u, css_ax_xy]
  norm_num

theorem simD_AC : calculate_semantic_similarity qD_A qD_C = 7/10 := by
  simp only [calculate_semantic_similarity, qD_A, qD_C, mkQ, css_s, css_t,
    css_o, css_u, css_ax_yz]
  norm_num

theorem simD_CA : calculate_semantic_similarity qD_C qD_A = 7/10 := by
  simp only [calculate_semantic_similarity, qD_C, qD_A, mkQ, css_s, css_t,
    css_o, css_u, css_yz_ax]
  norm_num

theorem simD_CB : calculate_semantic_similarity qD_C qD_B = 17/20 := by
  simp only [calculate_semantic_similarity, qD_C, qD_B, mkQ, css_s, css_t,
    css_o, css_u, css_yz_xy]
  norm_num

theorem simD_M1M2 : calculate_semantic_similarity qD_M1 qD_M2 = 1 := by
  simp only [calculate_semantic_similarity, qD_M1, qD_M2, mkQ, css_s, css_t,
    css_o, css_u, css_xy_xy]
  norm_num

/-- The similarity group found for index 0 of [A, B, C]: just B. -/
theorem fsD_0 : find_similar_quintuples [qD_A, qD_B, qD_C] 0 = [(1, 17/20)] := by
  have hr : List.range 3 = [0, 1, 2] := rfl
  simp only [find_similar_quintuples, hr, List.length_cons, List.length_nil,
    List.filterMap_cons, List.filterMap_nil, List.getD_cons_zero,
    List.getD_cons_succ, similarity_threshold, simD_AB, simD_AC]
  norm_num [List.insertionSort, List.orderedInsert]

/-- The similarity group found for index 2 of [A, B, C]: again B. -/
theorem fsD_2 : find_similar_quintuples [qD_A, qD_B, qD_C] 2 = [(1, 17/20)] := by
  have hr : List.range 3 = [0, 1, 2] := rfl
  simp only [find_similar_quintuples, hr, List.length_cons, List.length_nil,
    List.filterMap_cons, List.filterMap_nil, List.getD_cons_zero,
    List.getD_cons_succ, similarity_threshold, simD_CA, simD_CB]
  norm_num [List.insertionSort, List.orderedInsert]

/-- In the second pass, M2 is similar to M1 (similarity 1). -/
theorem fsD_M0 : find_similar_quintuples [qD_M1, qD_M2] 0 = [(1, 1)] := by
  have hr : List.range 2 = [0, 1] := rfl
  simp only [find_similar_quintuples, hr, List.length_cons, List.length_nil,
    List.filterMap_cons, List.filterMap_nil, List.getD_cons_zero,
    List.getD_cons_succ, similarity_threshold, simD_M1M2]
  norm_num [List.insertionSort, List.orderedInsert]

theorem mergeD_AB : merge_similar_quintuples [qD_A, qD_B] = qD_M1 := by
  unfold merge_similar_quintuples
  have hdedup : (["s1", "s2"] : List String).dedup = ["s1", "s2"] := by decide
  norm_num [qD_A, qD_B, qD_M1, mkQ, max_def, hdedup]

theorem mergeD_CB : merge_similar_quintuples [qD_C, qD_B] = qD_M2 := by
  unfold merge_similar_quintuples
  have hdedup : (["s3", "s2"] : List String).dedup = ["s3", "s2"] := by decide
  norm_num [qD_C, qD_B, qD_M2, mkQ, max_def, hdedup]

/-- First dedup pass over [A, B, C]: B anchors BOTH groups ({A,B} via index
0 and {C,B} via index 2 — `find_similar_quintuples` rescans already-merged
entries), producing two merged records that share all five fields. -/
theorem dedupD_once :
    deduplicate_quintuples [qD_A, qD_B, qD_C] = [qD_M1, qD_M2] := by
  have hr : List.range 3 = [0, 1, 2] := rfl
  simp only [deduplicate_quintuples, List.length_cons, List.length_nil, hr,
    dedupGo, fsD_0, fsD_2]
  norm_num [List.getD_cons_zero, List.getD_cons_succ, mergeD_AB, mergeD_CB]

/-- Second dedup pass: the two merged records are identical in all scored
fields (similarity 1), so they collapse into one. -/
theorem dedupD_twice_len :
    (deduplicate_quintuples [qD_M1, qD_M2]).length = 1 := by
  have hr : List.range 2 = [0, 1] := rfl
  simp only [deduplicate_quintuples, List.length_cons, List.length_nil, hr,
    dedupGo, fsD_M0]
  norm_num

/-- C3 counterexample: semantic deduplication is NOT idempotent.  For the
three-element list [A, B, C] with A~B, B~C but A≁C, one pass yields two
merged records (both based on B), and a second pass merges those two into
one — `dedup(dedup L) ≠ dedup L`. -/
theorem c3_counterexample :
    deduplicate_quintuples (deduplicate_quintuples [qD_A, qD_B, qD_C]) ≠
      deduplicate_quintuples [qD_A, qD_B, qD_C] := by
  rw [dedupD_once]
  intro h
  have hlen := congrArg List.length h
  rw [dedupD_twice_len] at hlen
  simp at hlen

/-- The `find_similar_quintuples` returns nothing when every other element is
below the similarity threshold. -/
theorem find_similar_empty (L : List Quintuple) (i : ℕ)
    (h : ∀ j, j < L.length → j ≠ i →
      calculate_semantic_similarity (L.getD i default) (L.getD j default) <
        similarity_threshold) :
    find_similar_quintuples L i = [] := by
  unfold find_similar_quintuples
  have hnil : (List.range L.length).filterMap (fun j =>
      let s := calculate_semantic_similarity (L.getD i default)
        (L.getD j default)
      if j ≠ i ∧ similarity_threshold ≤ s then some (j, s) else none) = [] := by
    rw [List.filterMap_eq_nil_iff]
    intro j hj
    rcases eq_or_ne j i with he | hne
    · simp [he]
    · have := h j (List.mem_range.mp hj) hne
      exact if_neg (fun hc => absurd hc.2 (not_le.mpr this))
  rw [hnil]
  rfl

/-- Under pairwise dissimilarity, the dedup loop copies the list through. -/
theorem dedupGo_eq_map (L : List Quintuple)
    (hfs : ∀ i, i < L.length → find_similar_quintuples L i = []) :
    ∀ (idx processed : List ℕ), (∀ i ∈ idx, i < L.length) →
      (∀ i ∈ idx, i ∉ processed) → idx.Nodup →
      dedupGo L idx processed = idx.map (fun i => L.getD i default) := by
  intro idx
  induction idx with
  | nil => intro processed _ _ _; rfl
  | cons i rest ih =>
    intro processed hlt hnp hnd
    unfold dedupGo
    rw [if_neg (hnp i (List.mem_cons_self i rest)),
      hfs i (hlt i (List.mem_cons_self i rest)), if_pos rfl, List.map_cons]
    refine congrArg (List.cons _) (ih (processed ++ [i]) ?_ ?_ ?_)
    · exact fun j hj => hlt j (List.mem_cons_of_mem i hj)
    · intro j hj
      rw [List.mem_append]
      rintro (hc | hc)
      · exact hnp j (List.mem_cons_of_mem i hj) hc
      · rw [List.mem_singleton] at hc
        subst hc
        exact (List.nodup_cons.mp hnd).1 hj
    · exact (List.nodup_cons.mp hnd).2

theorem map_getD_range (L : List Quintuple) :
    (List.range L.length).map (fun i => L.getD i default) = L := by
  induction L with
  | nil => rfl
  | cons a t ih =>
    rw [List.length_cons, List.range_succ_eq_map, List.map_cons,
      List.map_map]
    congr 1

/-- C3 amended: dedup is a fixed point on (index-)pairwise dissimilar lists
— in particular `dedup(dedup L) = dedup L` holds whenever similarity below
threshold separates all elements — but it is NOT idempotent in general: when
similarity groups overlap (an element similar to two mutually dissimilar
elements), one pass emits overlapping merges that a second pass merges
again (see the counterexample). -/
theorem c3_dedup_fixed_on_dissimilar (L : List Quintuple)
    (h : ∀ i j, i < L.length → j < L.length → j ≠ i →
      calculate_semantic_similarity (L.getD i default) (L.getD j default) <
        similarity_threshold) :
    deduplicate_quintuples L = L ∧
    deduplicate_quintuples (deduplicate_quintuples L) =
      deduplicate_quintuples L := by
  have hfix : deduplicate_quintuples L = L := by
    unfold deduplicate_quintuples
    rw [dedupGo_eq_map L
      (fun i hi => find_similar_empty L i (fun j hj hne => h i j hi hj hne))
      (List.range L.length) [] (fun i hi => List.mem_range.mp hi)
      (fun i _ => List.not_mem_nil i) (List.nodup_range _)]
    exact map_getD_range L
  refine ⟨hfix, ?_⟩
  rw [hfix]
  exact hfix

/-- C3 witness: the fixed-point theorem at the concrete dissimilar pair
[A, C] (similarity 0.7 < 0.8 both ways). -/
theorem c3_witness :
    deduplicate_quintuples [qD_A, qD_C] = [qD_A, qD_C] ∧
    deduplicate_quintuples (deduplicate_quintuples [qD_A, qD_C]) =
      deduplicate_quintuples [qD_A, qD_C] := by
  apply c3_dedup_fixed_on_dissimilar
  intro i j hi hj hne
  simp only [List.length_cons, List.length_nil] at hi hj
  interval_cases i <;> interval_cases j <;>
    first
      | exact absurd rfl hne
      | (simp only [List.getD_cons_zero, List.getD_cons_succ]
         first
           | (rw [simD_AC]; norm_num [similarity_threshold])
           | (rw [simD_CA]; norm_num [similarity_threshold]))

/-- C6 witness: at the concrete storage holding a 100-day-old "fact" record
and a 100-day-old "process" record, cleanup retains the fact (365-day
retention, and the theorem bounds its age) while the process file becomes
empty (90-day retention). -/
theorem c6_witness :
    qFact100d ∈ (cleanup_old_memories stC6 10000000).1.files MemoryType.fact ∧
    10000000 - qFact100d.timestamp ≤
      retention_days MemoryType.fact * 24 * 3600 ∧
    (cleanup_old_memories stC6 10000000).1.files MemoryType.process = [] := by
  have hfact : (cleanup_old_memories stC6 10000000).1.files MemoryType.fact
      = [qFact100d] := by
    rw [cleanup_files_eq]
    norm_num [stC6, apply_retention_policy, retention_days, qFact100d, mkQ]
  have hproc : (cleanup_old_memories stC6 10000000).1.files MemoryType.process
      = [] := by
    rw [cleanup_files_eq]
    norm_num [stC6, apply_retention_policy, retention_days, qProc100d, mkQ,
      save_memories, apply_size_limit, max_size]
  have hmem : qFact100d ∈
      (cleanup_old_memories stC6 10000000).1.files MemoryType.fact := by
    rw [hfact]; exact List.mem_singleton.mpr rfl
  exact ⟨hmem,
    c6_retention_enforcement stC6 10000000 MemoryType.fact qFact100d hmem,
    hproc⟩

/-- A pattern that starts a list and avoids `c` also starts the part left
of the first occurrence of `c`. -/
theorem start_split_left {p l₁ l₂ : List Char} {c : Char}
    (h : p <+: l₁ ++ c :: l₂) (hc : c ∉ p) : p <+: l₁ := by
  induction l₁ generalizing p with
  | nil =>
    cases p with
    | nil => exact List.nil_prefix
    | cons a p' =>
      obtain ⟨t, ht⟩ := h
      rw [List.nil_append, List.cons_append] at ht
      injection ht with h1 _
      exact absurd (h1 ▸ List.mem_cons_self a p') hc
  | cons b l₁' ih =>
    cases p with
    | nil => exact List.nil_prefix
    | cons a p' =>
      rw [List.cons_append] at h
      obtain ⟨h1, h2⟩ := List.cons_prefix_cons.mp h
      subst h1
      exact List.cons_prefix_cons.mpr
        ⟨rfl, ih h2 (fun hm => hc (List.mem_cons_of_mem _ hm))⟩

/-- An infix avoiding the separator `c` lies wholly on one side of it. -/
theorem infix_split_sep {p l₁ l₂ : List Char} {c : Char}
    (h : p <:+: l₁ ++ c :: l₂) (hc : c ∉ p) : p <:+: l₁ ∨ p <:+: l₂ := by
  induction l₁ generalizing p with
  | nil =>
    obtain ⟨u, v, huv⟩ := h
    rw [List.nil_append] at huv
    cases u with
    | nil =>
      rw [List.nil_append] at huv
      cases p with
      | nil => exact Or.inl List.infix_rfl
      | cons a p' =>
        rw [List.cons_append] at huv
        injection huv with h1 _
        exact absurd (h1 ▸ List.mem_cons_self a p') hc
    | cons x u' =>
      rw [List.cons_append, List.cons_append] at huv
      injection huv with _ h2
      exact Or.inr ⟨u', v, h2⟩
  | cons b l₁' ih =>
    obtain ⟨u, v, huv⟩ := h
    cases u with
    | nil =>
      rw [List.nil_append] at huv
      have hpre : p <+: (b :: l₁') ++ c :: l₂ := ⟨v, huv⟩
      exact Or.inl (start_split_left hpre hc).isInfix
    | cons x u' =>
      rw [List.cons_append, List.cons_append, List.cons_append] at huv
      injection huv with _ h2
      rcases ih ⟨u', v, h2⟩ hc with hL | hR
      · exact Or.inl (List.infix_cons hL)
      · exact Or.inr hR

/-- Filtering keeps an infix whose characters all pass the filter. -/
theorem infix_filter {p l : List Char} {f : Char → Bool}
    (h : p <:+: l) (hf : ∀ c ∈ p, f c = true) : p <:+: l.filter f := by
  obtain ⟨s, t, rfl⟩ := h
  exact ⟨s.filter f, t.filter f, by
    rw [List.filter_append, List.filter_append, List.filter_eq_self.mpr hf]⟩

/-- A non-empty whitespace-free infix of a string survives whitespace
tokenisation inside some token. -/
theorem infix_token_of_split (p : List Char) (hp : p ≠ [])
    (hsp : ∀ c ∈ p, pyIsSpace c = false) :
    ∀ (s cur : List Char), p <:+: cur.reverse ++ s →
      ∃ t ∈ splitTokens s cur, p <:+: t := by
  intro s
  induction s with
  | nil =>
    intro cur h
    rw [List.append_nil] at h
    by_cases hc : cur = []
    · subst hc
      exact absurd (List.eq_nil_of_infix_nil h) hp
    · exact ⟨cur.reverse, by rw [splitTokens, if_neg hc]; exact
        List.mem_singleton.mpr rfl, h⟩
  | cons c cs ih =>
    intro cur h
    by_cases hspace : pyIsSpace c = true
    · have hcp : c ∉ p := fun hm => by
        rw [hsp c hm] at hspace
        exact Bool.false_ne_true hspace
      rcases infix_split_sep h hcp with hL | hR
      · by_cases hc : cur = []
        · subst hc
          exact absurd (List.eq_nil_of_infix_nil (by simpa using hL)) hp
        · refine ⟨cur.reverse, ?_, hL⟩
          rw [splitTokens, if_pos hspace, if_neg hc]
          exact List.mem_cons_self _ _
      · obtain ⟨t, ht, hpt⟩ := ih [] (by simpa using hR)
        by_cases hc : cur = []
        · refine ⟨t, ?_, hpt⟩
          rw [splitTokens, if_pos hspace, if_pos hc]
          exact ht
        · refine ⟨t, ?_, hpt⟩
          rw [splitTokens, if_pos hspace, if_neg hc]
          exact List.mem_cons_of_mem _ ht
    · rw [splitTokens, if_neg hspace]
      apply ih (c :: cur)
      rw [List.reverse_cons, List.append_assoc]
      exact h

/-- Core keyword-survival lemma: if a pattern that is non-empty,
whitespace-free, made of word characters, at least two characters long, and
not a stop word occurs in the lowercased query, then `_extract_keywords`
returns at least one keyword. -/
theorem keyword_of_pattern (q : String) (p : List Char) (hp : p ≠ [])
    (hw : ∀ c ∈ p, pyIsWordChar c = true)
    (hs : ∀ c ∈ p, pyIsSpace c = false) (hlen : 2 ≤ p.length)
    (hstop : p ∉ stop_words)
    (hinf : p <:+: q.toList.map Char.toLower) :
    extract_keywords q ≠ [] := by
  have hclean : p <:+: clean_query q := by
    unfold clean_query
    exact infix_filter hinf (fun c hc => by simp [hw c hc])
  obtain ⟨t, htmem, hpt⟩ :=
    infix_token_of_split p hp hs (clean_query q) [] (by simpa using hclean)
  have htlen : 2 ≤ t.length := le_trans hlen hpt.length_le
  have htstop : t ∉ stop_words := by
    intro hmem
    have hle : t.length ≤ 2 := by
      have hall : ∀ w ∈ stop_words, w.length ≤ 2 := by decide
      exact hall t hmem
    have hpe : p = t := hpt.eq_of_length
      (le_antisymm hpt.length_le (le_trans hle hlen))
    exact hstop (hpe ▸ hmem)
  intro hnil
  have hfil : t ∈ (tokenize (clean_query q)).filter
      (fun w => decide (w ∉ stop_words ∧ 1 < w.length)) :=
    List.mem_filter.mpr ⟨htmem, decide_eq_true ⟨htstop, by omega⟩⟩
  have : t ∈ extract_keywords q := List.mem_dedup.mpr hfil
  rw [hnil] at this
  exact List.not_mem_nil t this

/-- C9 witness: the amended theorem at concrete inputs — an empty subject
errors, and both names non-empty succeeds. -/
theorem c9_witness :
    calculate_basic_importance (mkQ "" "t" "p" "y" "u" 0 "s" "fact" (1/2)) ""
        = none ∧
    ((mkQ "x" "t" "p" "y" "u" 0 "s" "fact" (1/2)).subject ≠ "" ∧
     (mkQ "x" "t" "p" "y" "u" 0 "s" "fact" (1/2)).object ≠ "" ∧
     (calculate_basic_importance (mkQ "x" "t" "p" "y" "u" 0 "s" "fact" (1/2))
        "").isSome = true) := by
  refine ⟨c9_basic_importance_not_total.1 _ "" rfl, by decide, by decide, ?_⟩
  exact c9_basic_importance_not_total.2.2 _ "" (by decide) (by decide)

/-- Every trigger pattern satisfies the conditions of
`keyword_of_pattern`. -/
theorem trigger_pattern_props : ∀ p ∈ trigger_patterns,
    p.toList ≠ [] ∧ (∀ c ∈ p.toList, pyIsWordChar c = true) ∧
    (∀ c ∈ p.toList, pyIsSpace c = false) ∧ 2 ≤ p.toList.length ∧
    p.toList ∉ stop_words := by decide

/-- The trigger patterns are lowercase-invariant (CJK characters). -/
theorem trigger_pattern_lower : ∀ p ∈ trigger_patterns,
    p.toList.map Char.toLower = p.toList := by decide

/-- A query carrying any trigger pattern (in its lowercased text) has a
non-empty keyword list. -/
theorem keywords_of_trigger (q : String) (p : String)
    (hpm : p ∈ trigger_patterns)
    (hinf : p.toList <:+: q.toList.map Char.toLower) :
    extract_keywords q ≠ [] := by
  obtain ⟨h1, h2, h3, h4, h5⟩ := trigger_pattern_props p hpm
  exact keyword_of_pattern q p.toList h1 h2 h3 h4 h5 hinf

/-- If the query classifies as temporal, emotional or procedural, one of the
hardcoded patterns occurs in the lowercased query text. -/
theorem classify_trigger (q : String)
    (h : classify_query_type q = QueryType.temporal ∨
      classify_query_type q = QueryType.emotional ∨
      classify_query_type q = QueryType.procedural) :
    ∃ p ∈ trigger_patterns, containsSub (pyLower q) p = true := by
  have hsub1 : (["什么时候", "何时", "多久", "最近", "今天", "昨天"] :
      List String) ⊆ trigger_patterns := by decide
  have hsub2 : (["感觉", "喜欢", "讨厌", "开心", "难过"] : List String) ⊆
      trigger_patterns := by decide
  have hsub3 : (["如何", "怎么", "步骤", "过程", "方法"] : List String) ⊆
      trigger_patterns := by decide
  by_cases h1 : (["什么时候", "何时", "多久", "最近", "今天", "昨天"].any
      (fun p => containsSub (pyLower q) p)) = true
  · obtain ⟨p, hpm, hpc⟩ := List.any_eq_true.mp h1
    exact ⟨p, hsub1 hpm, hpc⟩
  · by_cases h2 : (["感觉", "喜欢", "讨厌", "开心", "难过"].any
        (fun p => containsSub (pyLower q) p)) = true
    · obtain ⟨p, hpm, hpc⟩ := List.any_eq_true.mp h2
      exact ⟨p, hsub2 hpm, hpc⟩
    · by_cases h3 : (["如何", "怎么", "步骤", "过程", "方法"].any
          (fun p => containsSub (pyLower q) p)) = true
      · obtain ⟨p, hpm, hpc⟩ := List.any_eq_true.mp h3
        exact ⟨p, hsub3 hpm, hpc⟩
      · exfalso
        unfold classify_query_type at h
        rw [if_neg h1, if_neg h2, if_neg h3] at h
        rcases h with h | h | h <;> split at h <;> simp_all
          <;> (split at h <;> simp_all)

/-- If `_extract_time_constraints` returns a constraint, one of the four
trigger substrings occurs in the raw query. -/
theorem tc_trigger (q : String) (tc : TimeConstraints)
    (h : extract_time_constraints q = some tc) :
    ∃ p ∈ (["最近", "今天", "昨天", "小时前"] : List String),
      containsSub q.toList p = true := by
  unfold extract_time_constraints at h
  dsimp only at h
  by_cases hg : temporal_pattern_matches q.toList = true
  · rw [if_pos hg] at h
    by_cases c1 : containsSub q.toList "最近" = true
    · exact ⟨"最近", by decide, c1⟩
    · rw [if_neg c1] at h
      by_cases c2 : containsSub q.toList "今天" = true
      · exact ⟨"今天", by decide, c2⟩
      · rw [if_neg c2] at h
        by_cases c3 : containsSub q.toList "昨天" = true
        · exact ⟨"昨天", by decide, c3⟩
        · rw [if_neg c3] at h
          by_cases c4 : containsSub q.toList "小时前" = true
          · exact ⟨"小时前", by decide, c4⟩
          · rw [if_neg c4] at h
            exact absurd h (by simp)
  · rw [if_neg hg] at h
    exact absurd h (by simp)

/-- A raw-query substring occurrence survives lowercasing. -/
theorem infix_lower_of_infix_raw (q : String) (p : String)
    (hlow : p.toList.map Char.toLower = p.toList)
    (h : p.toList <:+: q.toList) :
    p.toList <:+: q.toList.map Char.toLower := hlow ▸ h.map Char.toLower

/-- If the analyzed keywords are empty, relevance scoring errors on any
non-empty result list. -/
theorem relevance_scores_none (now : ℚ) (a : QueryAnalysis)
    (qs : List Quintuple) (hk : a.keywords = []) (hqs : qs ≠ []) :
    calculate_relevance_scores now qs a = none := by
  cases qs with
  | nil => exact absurd rfl hqs
  | cons q rest =>
    unfold calculate_relevance_scores
    rw [if_pos (by rw [hk]; rfl)]

/-- With at least one keyword, relevance scoring always succeeds. -/
theorem relevance_scores_isSome (now : ℚ) (a : QueryAnalysis)
    (hk : a.keywords ≠ []) (qs : List Quintuple) :
    (calculate_relevance_scores now qs a).isSome = true := by
  induction qs with
  | nil => rfl
  | cons q rest ih =>
    unfold calculate_relevance_scores
    rw [if_neg (fun hz => hk (List.length_eq_zero.mp hz))]
    obtain ⟨scores, hsc⟩ := Option.isSome_iff_exists.mp ih
    rw [hsc]
    rfl

/-- The semantic-search strategy with no keywords queries nothing. -/
theorem semantic_search_empty (ex : ℚ → ℚ) (now : ℚ) (st : MemoryState)
    (a : QueryAnalysis) (hk : a.keywords = []) :
    extract_semantic_search ex now st a = [] := by
  unfold extract_semantic_search expand_keywords_semantically
  rw [hk]
  rfl

/-- Totality of the query entry point: `extract_memories` never reaches the
division by `len(keywords)` with a zero divisor.  An empty keyword
extraction forces the semantic-search strategy (the temporal/emotional/
procedural classifications and any time constraint each imply a surviving
keyword), and semantic search over an empty keyword list returns no
results, so the scoring loop never runs. -/
theorem extract_memories_isSome (ex : ℚ → ℚ) (now : ℚ) (st : MemoryState)
    (query : String) (mr : ℕ) :
    (extract_memories ex now st query mr).isSome = true := by
  by_cases hk : (analyze_query query).keywords = []
  · have hkq : extract_keywords query = [] := hk
    have hnt : ∀ p ∈ trigger_patterns, ¬ (p.toList <:+:
        query.toList.map Char.toLower) := by
      intro p hpm hinf
      exact keywords_of_trigger query p hpm hinf hkq
    have hcl : ¬ (classify_query_type query = QueryType.temporal ∨
        classify_query_type query = QueryType.emotional ∨
        classify_query_type query = QueryType.procedural) := by
      intro h
      obtain ⟨p, hpm, hpc⟩ := classify_trigger query h
      exact hnt p hpm (of_decide_eq_true hpc)
    have htc : extract_time_constraints query = none := by
      cases h : extract_time_constraints query with
      | none => rfl
      | some tc =>
        obtain ⟨p, hpm, hpc⟩ := tc_trigger query tc h
        have hsub : (["最近", "今天", "昨天", "小时前"] : List String) ⊆
            trigger_patterns := by decide
        exact absurd
          (infix_lower_of_infix_raw query p
            (trigger_pattern_lower p (hsub hpm)) (of_decide_eq_true hpc))
          (hnt p (hsub hpm))
    have hstrat : (analyze_query query).extraction_strategy =
        ExtractionStrategy.semantic_search := by
      show determine_extraction_strategy (classify_query_type query)
        (extract_keywords query) (extract_time_constraints query) = _
      unfold determine_extraction_strategy
      cases hq : classify_query_type query with
      | temporal => exact absurd (Or.inl hq) hcl
      | emotional => exact absurd (Or.inr (Or.inl hq)) hcl
      | procedural => exact absurd (Or.inr (Or.inr hq)) hcl
      | factual => rw [htc, hkq]; rfl
      | relational => rw [htc, hkq]; rfl
      | meta => rw [htc, hkq]; rfl
      | comprehensive => rw [htc, hkq]; rfl
    have hqs : dispatch_strategy ex now st (analyze_query query) = [] := by
      unfold dispatch_strategy
      rw [hstrat]
      exact semantic_search_empty ex now st _ hk
    unfold extract_memories
    dsimp only
    rw [hqs]
    rfl
  · have hsome := relevance_scores_isSome now (analyze_query query) hk
      (dispatch_strategy ex now st (analyze_query query))
    obtain ⟨scores, hsc⟩ := Option.isSome_iff_exists.mp hsome
    unfold extract_memories
    dsimp only
    rw [hsc]
    rfl

/-- C10 counterexample (negation of the claim): the division-by-zero in
`_calculate_relevance_scores` is NOT reachable from the public
`extract_memories` entry point — for no oracle, time, stored state, query
or result cap does the pipeline error.  (In particular, no type-based
strategy ever runs with an empty keyword list, because the emotional and
procedural classifications require a pattern that itself survives as a
keyword.) -/
theorem c10_counterexample :
    ¬ ∃ (ex : ℚ → ℚ) (now : ℚ) (st : MemoryState) (query : String) (mr : ℕ),
      extract_memories ex now st query mr = none := by
  rintro ⟨ex, now, st, query, mr, h⟩
  have := extract_memories_isSome ex now st query mr
  rw [h] at this
  exact Bool.false_ne_true this

/-- C10 amended: `_calculate_relevance_scores` itself is partial — an empty
keyword list with a non-empty result list divides by zero — but that
configuration is unreachable from `extract_memories`: empty keyword
extraction forces the semantic-search strategy, whose result set is then
empty, so the public query entry point is total. -/
theorem c10_division_guarded :
    (∀ (now : ℚ) (a : QueryAnalysis) (qs : List Quintuple),
      a.keywords = [] → qs ≠ [] →
      calculate_relevance_scores now qs a = none) ∧
    (∀ (ex : ℚ → ℚ) (now : ℚ) (st : MemoryState) (query : String) (mr : ℕ),
      (extract_memories ex now st query mr).isSome = true) :=
  ⟨relevance_scores_none, extract_memories_isSome⟩

/-- C10 witness: the amended theorem at concrete inputs — the empty-keyword
analysis errors on a singleton result list, and the entry point succeeds on
a concrete emotional one-character query over the empty state. -/
theorem c10_witness :
    (aEmptyKw.keywords = [] ∧ ([default] : List Quintuple) ≠ [] ∧
      calculate_relevance_scores 0 [default] aEmptyKw = none) ∧
    (extract_memories (fun x => x) 0 stEmpty "爱" 10).isSome = true := by
  refine ⟨⟨rfl, by simp, c10_division_guarded.1 0 aEmptyKw [default] rfl
    (by simp)⟩, c10_division_guarded.2 (fun x => x) 0 stEmpty "爱" 10⟩

end SummerMemory
